import Mathlib

/-!
Verification of the Neochicks WhatsApp bot core (src/app.py): the dialogue
state machine (`brain_reply`), the catalog matcher (`find_by_capacity`),
the session model, order assembly, and the invoice layout arithmetic.
Every definition below is a shallow embedding of the corresponding Python
function; machine side effects (HTTP sends, file writes) are represented by
an explicit `Ext` record of external outcomes and a `DispatchStep` log.
-/

namespace Neochicks

/-! ## String helpers (embedding Python `str` / `re` operations) -/

/-- Python-whitespace test for `str.strip()`. -/
def isWsC (c : Char) : Bool :=
  c == ' ' || c == '\t' || c == '\n' || c == '\r' || c.toNat == 11 || c.toNat == 12

/-- Python `s.strip()`. -/
def pyStrip (s : String) : String :=
  (((s.toList.dropWhile isWsC).reverse.dropWhile isWsC).reverse).asString

/-- ASCII lowering of one character (inputs handled by the bot are ASCII). -/
def lowerChar (c : Char) : Char :=
  if 65 ≤ c.toNat ∧ c.toNat ≤ 90 then Char.ofNat (c.toNat + 32) else c

/-- ASCII uppercasing of one character. -/
def upperChar (c : Char) : Char :=
  if 97 ≤ c.toNat ∧ c.toNat ≤ 122 then Char.ofNat (c.toNat - 32) else c

/-- Python `s.lower()`. -/
def pyLower (s : String) : String := (s.toList.map lowerChar).asString

/-- List-of-chars prefix test (`l₁` is a prefix of `l₂`). -/
def isPrefixL : List Char → List Char → Bool
  | [], _ => true
  | _ :: _, [] => false
  | a :: as, b :: bs => a == b && isPrefixL as bs

/-- Substring containment on char lists: Python `pat in s`. -/
def occursL (pat : List Char) : List Char → Bool
  | [] => isPrefixL pat []
  | c :: rest => isPrefixL pat (c :: rest) || occursL pat rest

/-- Python `pat in s` for strings. -/
def occurs (pat s : String) : Bool := occursL pat.toList s.toList

/-- Python `any(k in low for k in kws)`. -/
def containsAny (low : String) (kws : List String) : Bool :=
  kws.any (fun k => occurs k low)

/-- Python `re.sub(r"[^0-9]", "", s)`: keep only ASCII digits. -/
def digitsOf (s : String) : String := (s.toList.filter Char.isDigit).asString

/-- Python `len(re.sub(r"\D", "", s))`: number of digit characters. -/
def countDigits (s : String) : Nat := (s.toList.filter Char.isDigit).length

/-- Python `re.sub(r"[^a-z ]", "", s)`: keep lowercase letters and spaces. -/
def lettersOnly (s : String) : String :=
  (s.toList.filter (fun c => (97 ≤ c.toNat && c.toNat ≤ 122) || c == ' ')).asString

/-- Python `re.sub(r"[^0-9+ ]", "", s)`: keep digits, plus signs, spaces. -/
def phoneChars (s : String) : String :=
  (s.toList.filter (fun c => c.isDigit || c == '+' || c == ' ')).asString

/-- Python `re.sub(r"[^0-9a-z ]", "", s)`: keep digits, lowercase letters, spaces. -/
def choiceChars (s : String) : String :=
  (s.toList.filter (fun c => c.isDigit || (97 ≤ c.toNat && c.toNat ≤ 122) || c == ' ')).asString

/-- A regex word character `\w` restricted to lowered text: `[a-z0-9_]`
(uppercase also included for safety, matching `\w`). -/
def wordChar (c : Char) : Bool :=
  c.isDigit || (97 ≤ c.toNat && c.toNat ≤ 122) || (65 ≤ c.toNat && c.toNat ≤ 90) || c == '_'

/-- Maximal runs of word characters, used for `\b…\b` word matching. -/
def wordTokensAux : List Char → List Char → List String
  | [], acc => if acc.isEmpty then [] else [acc.reverse.asString]
  | c :: rest, acc =>
    if wordChar c then wordTokensAux rest (c :: acc)
    else if acc.isEmpty then wordTokensAux rest []
    else acc.reverse.asString :: wordTokensAux rest []

def wordTokens (s : String) : List String := wordTokensAux s.toList []

/-- Python `re.search(r"\bchicks?\b", low)`: some maximal word-char run is
exactly `chick` or `chicks`. -/
def isChicksWord (low : String) : Bool :=
  (wordTokens low).any (fun w => w == "chick" || w == "chicks")

/-- Value of a list of ASCII digit characters. -/
def toNatDigits (l : List Char) : Nat :=
  l.foldl (fun acc c => acc * 10 + (c.toNat - 48)) 0

/-- Python `re.search(r"([0-9]{2,5})", low)`: the leftmost run of at least
two consecutive digits, truncated greedily to at most five. -/
def firstCapAux : List Char → Option Nat
  | [] => none
  | c :: rest =>
    if c.isDigit && (match rest with | d :: _ => d.isDigit | [] => false) then
      some (toNatDigits (((c :: rest).takeWhile Char.isDigit).take 5))
    else firstCapAux rest

def firstCap (low : String) : Option Nat := firstCapAux low.toList

/-- Split on spaces, dropping empty pieces: Python `s.split()` on
letters-and-spaces strings. -/
def splitWSAux : List Char → List Char → List String
  | [], acc => if acc.isEmpty then [] else [acc.reverse.asString]
  | c :: rest, acc =>
    if c == ' ' then
      if acc.isEmpty then splitWSAux rest []
      else acc.reverse.asString :: splitWSAux rest []
    else splitWSAux rest (c :: acc)

def splitWS (s : String) : List String := splitWSAux s.toList []

/-- Python `s.endswith(pat)`. -/
def strEndsWith (pat s : String) : Bool :=
  isPrefixL pat.toList.reverse s.toList.reverse

/-- Python `str.title()` on lowercase letters-and-spaces strings: uppercase
each character not preceded by a letter. -/
def pyTitleAux : List Char → Bool → List Char
  | [], _ => []
  | c :: rest, prevAlpha =>
    (if prevAlpha then c else upperChar c) :: pyTitleAux rest c.isAlpha

def pyTitle (s : String) : String := (pyTitleAux s.toList false).asString

/-- Thousands grouping for `f"KSh{int(n):,}"` (input: reversed digit list). -/
def group3 : List Char → List Char
  | a :: b :: c :: d :: rest => a :: b :: c :: ',' :: group3 (d :: rest)
  | l => l

/-- Python `ksh(n)` for natural `n`: `KSh` plus comma-grouped digits. -/
def ksh (n : Nat) : String :=
  "KSh" ++ ((group3 (Nat.repr n).toList.reverse).reverse.asString)

/-! ## Catalog (src/app.py `CATALOG`, `find_by_capacity`, `price_page_text`) -/

structure Item where
  name : String
  capacity : Nat
  price : Nat
  solar : Bool
  free_gen : Bool
  image : String
deriving DecidableEq, Repr

def CATALOG : List Item := [
  ⟨"56 Eggs", 56, 13000, true, false, "https://neochickspoultry.com/wp-content/uploads/2018/12/56-Eggs-solar-electric-incubator-1-600x449.png"⟩,
  ⟨"64 Eggs", 64, 14000, true, false, "https://neochickspoultry.com/wp-content/uploads/2021/09/64-Eggs-solar-electric-incubator-e1630976080329-600x450.jpg"⟩,
  ⟨"112 Eggs", 104, 19000, true, false, "https://neochickspoultry.com/wp-content/uploads/2021/09/104-Eggs-Incubator-1.png"⟩,
  ⟨"128 Eggs", 128, 20000, true, false, "https://neochickspoultry.com/wp-content/uploads/2021/09/128-Eggs-solar-incubator-2.png"⟩,
  ⟨"192 Eggs", 192, 28000, true, false, "https://neochickspoultry.com/wp-content/uploads/2021/09/192-egg-incubator-1-600x600.jpg"⟩,
  ⟨"204 Eggs", 204, 30000, true, false, "https://neochickspoultry.com/wp-content/uploads/2025/07/204-eggs-incubator-600x650.jpg"⟩,
  ⟨"256 Eggs", 256, 33000, true, false, "https://neochickspoultry.com/wp-content/uploads/2023/01/256-eggs-large-photo-600x676.jpeg"⟩,
  ⟨"264 Eggs", 264, 45000, false, false, "https://neochickspoultry.com/wp-content/uploads/2021/09/264-Eggs--incubator-1.jpg"⟩,
  ⟨"300 Eggs", 300, 52000, true, false, "https://neochickspoultry.com/wp-content/uploads/2021/09/300-Eggs-solar-incubator.jpg"⟩,
  ⟨"350 Eggs", 350, 54000, true, false, "https://neochickspoultry.com/wp-content/uploads/2021/09/300-Eggs-solar-incubator.jpg"⟩,
  ⟨"528 Eggs", 528, 63000, false, true, "https://neochickspoultry.com/wp-content/uploads/2021/09/528-Eggs--Incubator-1-600x425.jpg"⟩,
  ⟨"616 Eggs", 616, 66000, false, true, "https://neochickspoultry.com/wp-content/uploads/2022/01/528-inc-600x800.png"⟩,
  ⟨"1056 Eggs", 1056, 80000, false, true, "https://neochickspoultry.com/wp-content/uploads/2021/09/1056-full-front-view.jpg"⟩,
  ⟨"1232 Eggs", 1232, 90000, false, true, "https://neochickspoultry.com/wp-content/uploads/2021/09/1232-Eggs--incubator.jpg"⟩,
  ⟨"1584 Eggs", 1584, 115000, false, true, "https://neochickspoultry.com/wp-content/uploads/2021/09/1584-Eggs-Incubator.jpg"⟩,
  ⟨"2112 Eggs", 2112, 120000, false, true, "https://neochickspoultry.com/wp-content/uploads/2021/09/2112-Eggs-Incubator.png"⟩,
  ⟨"3520 Eggs", 3520, 180000, false, true, "https://neochickspoultry.com/wp-content/uploads/2021/09/5280Incubator.jpg"⟩,
  ⟨"5280Eggs", 5280, 240000, false, true, "https://neochickspoultry.com/wp-content/uploads/2021/09/5280-Eggs-Incubator.png"⟩]

/-- Stable insertion by ascending capacity (Python `sorted(..., key=capacity)`). -/
def insertByCap (p : Item) : List Item → List Item
  | [] => [p]
  | q :: qs => if p.capacity ≤ q.capacity then p :: q :: qs else q :: insertByCap p qs

def sortByCap : List Item → List Item
  | [] => []
  | p :: ps => insertByCap p (sortByCap ps)

/-- `find_by_capacity(cap)`: first item of the capacity-sorted catalog whose
capacity is ≥ `cap`; if none, the largest item; `None` only on empty catalog. -/
def find_by_capacity (cap : Nat) : Option Item :=
  let items := sortByCap CATALOG
  match items.find? (fun p => cap ≤ p.capacity) with
  | some p => some p
  | none => items.getLast?

/-- The maximum catalog capacity (5280). -/
def catalogMaxCap : Nat := 5280

/-- The maximum-capacity catalog item. -/
def catalogMaxItem : Item :=
  ⟨"5280Eggs", 5280, 240000, false, true, "https://neochickspoultry.com/wp-content/uploads/2021/09/5280-Eggs-Incubator.png"⟩

/-! ### General facts about `find?` on capacity-sorted lists -/

/-- If `find?` returns `p`, then `p` satisfies the bound, is in the list, and
(on a capacity-sorted list) is capacity-minimal among qualifying items. -/
theorem find?_cap_min (cap : Nat) :
    ∀ l : List Item, List.Pairwise (fun a b => a.capacity ≤ b.capacity) l →
      ∀ p, l.find? (fun q => cap ≤ q.capacity) = some p →
        cap ≤ p.capacity ∧ p ∈ l ∧
          ∀ q ∈ l, cap ≤ q.capacity → p.capacity ≤ q.capacity := by
  intro l
  induction l with
  | nil => intro _ p hp; simp [List.find?] at hp
  | cons a l ih =>
    intro hpw p hp
    rw [List.pairwise_cons] at hpw
    rw [List.find?_cons] at hp
    by_cases ha : cap ≤ a.capacity
    · simp [ha] at hp
      subst hp
      refine ⟨ha, List.mem_cons_self _ _, ?_⟩
      intro q hq _
      rcases List.mem_cons.mp hq with h | h
      · subst h; exact le_refl _
      · exact hpw.1 q h
    · simp [ha] at hp
      obtain ⟨h1, h2, h3⟩ := ih hpw.2 p hp
      refine ⟨h1, List.mem_cons_of_mem _ h2, ?_⟩
      intro q hq hcq
      rcases List.mem_cons.mp hq with h | h
      · subst h; exact absurd hcq ha
      · exact h3 q h hcq

/-- If `find?` fails, every element has capacity strictly below the request. -/
theorem find?_cap_none (cap : Nat) :
    ∀ l : List Item, l.find? (fun q => cap ≤ q.capacity) = none →
      ∀ q ∈ l, q.capacity < cap := by
  intro l hl q hq
  have := List.find?_eq_none.mp hl q hq
  simpa [Nat.lt_iff_add_one_le, Nat.not_le] using this

theorem sortByCap_CATALOG : sortByCap CATALOG = CATALOG := by decide

theorem CATALOG_sorted :
    List.Pairwise (fun a b : Item => a.capacity ≤ b.capacity) CATALOG := by
  decide

theorem find_by_capacity_eq (cap : Nat) :
    find_by_capacity cap =
      match CATALOG.find? (fun p => cap ≤ p.capacity) with
      | some p => some p
      | none => CATALOG.getLast? := by
  simp only [find_by_capacity, sortByCap_CATALOG]

/-- C3: for every requested capacity at most the catalog maximum,
`find_by_capacity` returns the item with the smallest capacity at least the
request; for every request above the maximum it returns the maximum-capacity
item; it never fails on the non-empty catalog. -/
theorem c3_find_by_capacity_ceiling (cap : Nat) :
    (find_by_capacity cap).isSome = true
    ∧ (cap ≤ catalogMaxCap →
        ∃ p, find_by_capacity cap = some p ∧ p ∈ CATALOG ∧ cap ≤ p.capacity ∧
          ∀ q ∈ CATALOG, cap ≤ q.capacity → p.capacity ≤ q.capacity)
    ∧ (catalogMaxCap < cap → find_by_capacity cap = some catalogMaxItem) := by
  have hcapsLe : ∀ q ∈ CATALOG, q.capacity ≤ 5280 := by decide
  have hmaxMem : catalogMaxItem ∈ CATALOG := by decide
  have hlast : CATALOG.getLast? = some catalogMaxItem := by decide
  rw [find_by_capacity_eq]
  cases h : CATALOG.find? (fun p => cap ≤ p.capacity) with
  | some p =>
    obtain ⟨h1, h2, h3⟩ := find?_cap_min cap CATALOG CATALOG_sorted p h
    refine ⟨rfl, fun _ => ⟨p, rfl, h2, h1, h3⟩, fun hbig => ?_⟩
    exact absurd (le_trans h1 (hcapsLe p h2)) (Nat.not_le.mpr hbig)
  | none =>
    have hall := find?_cap_none cap CATALOG h
    refine ⟨by simp [hlast], fun hle => ?_, fun _ => hlast⟩
    exact absurd (lt_of_lt_of_le (hall catalogMaxItem hmaxMem) hle)
      (by simp [catalogMaxItem, catalogMaxCap])

/-- Witness for C3 at the concrete request 528 (and at 6000 for the clamp). -/
theorem c3_find_by_capacity_ceiling_witness :
    (528 ≤ catalogMaxCap ∧
      ∃ p, find_by_capacity 528 = some p ∧ p ∈ CATALOG ∧ 528 ≤ p.capacity ∧
        ∀ q ∈ CATALOG, 528 ≤ q.capacity → p.capacity ≤ q.capacity) ∧
    (catalogMaxCap < 6000 ∧ find_by_capacity 6000 = some catalogMaxItem) :=
  ⟨⟨by decide, (c3_find_by_capacity_ceiling 528).2.1 (by decide)⟩,
   ⟨by decide, (c3_find_by_capacity_ceiling 6000).2.2 (by decide)⟩⟩

/-! ## Session model (src/app.py `SESS`, `brain_reply` states) -/

/-- The conversation phases assigned to `sess["state"]` anywhere in
`brain_reply` (`None` is represented by `Option.none` around this type). -/
inductive SState
  | prices | eggsMenu | chicksMenu | cagesMenu
  | awaitCounty | awaitName | awaitPhone | awaitConfirm
  | editMenu | editName | editPhone | editCounty | editModel
  | cancelConfirm
deriving DecidableEq, Repr

/-- A per-customer session dict; `{"state": None, "page": 1}` is the default. -/
structure Session where
  state : Option SState := none
  page : Nat := 1
  prev_state : Option SState := none
  last_product : Option Item := none
  last_county : Option String := none
  last_eta : Option String := none
  customer_name : Option String := none
  customer_phone : Option String := none
deriving DecidableEq, Repr

def defaultSession : Session := {}

/-- The immutable order record built at confirmation. -/
structure Order where
  id : String
  wa_from : String
  customer_name : String
  customer_phone : String
  county : String
  model : String
  capacity : Nat
  price : Nat
  eta : String
  created_at_utc : String
deriving DecidableEq, Repr

/-- The reply dict (`text` / `mediaUrl` / `caption` optional keys). -/
structure Reply where
  text : Option String := none
  mediaUrl : Option String := none
  caption : Option String := none
deriving DecidableEq, Repr

/-- One attempted external dispatch call and its outcome. -/
inductive DispatchStep
  | emailSent (ok : Bool)
  | pdfWritten (ok : Bool)
  | mediaUpload (result : Option String)
  | docById (ok : Bool)
  | docByLink (ok : Bool)
  | textLink (ok : Bool)
deriving DecidableEq, Repr

/-- Outcomes of the external world consulted by `brain_reply`: the clock
(`is_after_hours`, order id/timestamp) and the success or failure of every
dispatch call (each of which the source wraps in try/except or a bool). -/
structure Ext where
  afterHours : Bool := false
  fromWa : String := ""
  orderId : String := "NEO-260101000000"
  createdAt : String := "2026-01-01T00:00:00"
  emailOk : Bool := false
  pdfOk : Bool := false
  mediaId : Option String := none
  docByIdOk : Bool := false
  docByLinkOk : Bool := false
  textOk : Bool := false
deriving DecidableEq, Repr

/-- Value of one `brain_reply` call: the stored session after the call, the
returned reply dict, the order created (confirmation only), and the log of
attempted dispatch calls. -/
structure BrainResult where
  session : Session
  reply : Reply
  order : Option Order := none
  steps : List DispatchStep := []
deriving DecidableEq, Repr

/-! ## Business constants and reply texts -/

def CALL_LINE : String := "0707787884"
def PAYMENT_NOTE : String := "Pay on delivery"
def AFTER_HOURS_NOTE : String := "We are currently off till early morning."

/-- ASCII apostrophe (U+0027). -/
def apos : String := String.singleton (Char.ofNat 39)

def main_menu_text (after_note : String) : String :=
  "🐣 Karibu *Neochicks Ltd.*\n" ++
  "The leading dealer in Poultry Farming Services.\n" ++
  "Please choose what you are interested in:\n\n" ++
  "1️⃣ *Incubators* 🌡️\n" ++
  "2️⃣ *Chicks* 🐥\n" ++
  "3️⃣ *Fertile Eggs* 🥚\n" ++
  "4️⃣ *Cages & Equipment* 🪺\n\n" ++
  "Reply with one of the *numbers above* and I will guide you🙏.\n" ++
  "☎️ " ++ CALL_LINE ++ after_note

def incubator_text : String :=
  "🔥 *MODERN AUTOMATIC EGGS INCUBATORS*\n\n" ++
  "We supply high-quality, highly efficient digital automatic incubators with:\n" ++
  "✔ Automatic turning, temperature control and humidity control\n" ++
  "✔ High hatch rates\n" ++
  "✔ 1-year warranty\n" ++
  "✔ *FREE* Fertile Eggs\n" ++
  "✔ *FREE* Backup Generators\n" ++
  "✔ *FREE* delivery countrywide\n\n" ++
  "To view the full price list with Photos, send the word: *PRICES*\n\n" ++
  "To speak to us directly, call " ++ CALL_LINE ++ ".\n" ++
  "Website: https://neochickspoultry.com/eggs-incubators/"

def fertile_eggs_text : String :=
  "We supply quality *fertile eggs for incubation* 🥚\n\n" ++
  "*Improved Kienyeji Fertile Eggs*\n" ++
  "• (Sasso, Kari, Kenbro, Kuroiler and Rainbow Rooster)\n" ++
  "• (1 tray (30 eggs) → *Ksh900*)\n\n" ++
  "If you like, I can share *photos of our Different breeds of mature chickens*.\n" ++
  "Simply type: *PHOTOS*\n\n" ++
  "For more information on delivery, availability, pictures etc,\n" ++
  "please call us on: " ++ CALL_LINE ++ "\n" ++
  "You can also visit our website:\n" ++
  "https://neochickspoultry.com/kienyeji-farming/"

def chicks_info_text : String :=
  "We deal with quality chicks at different ages.\n" ++
  "*Improved Kienyeji chicks*\n" ++
  "(Sasso, Kari, Kenbro and Kuroiler breeds)\n" ++
  "3 days → *Ksh100*\n" ++
  "1 week → *Ksh130*\n" ++
  "2 weeks → *Ksh160*\n" ++
  "3 weeks → *Ksh200*\n" ++
  "4 weeks → *Ksh230*\n\n" ++
  "*LAYERS CHICKS*\n" ++
  "1 DAY OLD → *Ksh160*\n" ++
  "1 Week OLD → *Ksh190*\n" ++
  "2 Weeks OLD → *Ksh230*\n" ++
  "3 Weeks OLD → *Ksh260*\n" ++
  "1 Month OLD → *Ksh300*\n\n" ++
  "2 MONTHS OLD → *Ksh450*\n" ++
  "3 MONTHS OLD → *Ksh550*\n" ++
  "4 MONTHS OLD → *Ksh750*\n" ++
  "5 MONTHS OLD → *Ksh850*\n\n" ++
  "If you like, I can share the *photos of different ages of layers chicks*.\n\n" ++
  "Simply type: *PHOTOS*\n\n" ++
  "For more information on delivery, availability, more pictures etc,\n" ++
  "please call us on: " ++ CALL_LINE ++ "\n" ++
  "You can also visit our website:\n" ++
  "https://neochickspoultry.com/kienyeji-farming/"

def cages_text : String :=
  "We have high quality, modern galvanized layers cages fitted with automated nipple drinking system and feeding troughs.\n\n" ++
  "The 128 birds cages goes at ksh38,000\n" ++
  "The 256 birds cages goes at ksh76,000\n" ++
  "The 384 birds cages goes at ksh114,000\n" ++
  "The 512 birds cages goes at ksh152,000\n" ++
  "The 640 birds cages goes at ksh190,000\n" ++
  "And so on...in multiples of 128 Birds\n\n" ++
  "If you like, I can share the *photos of different ages of chicks*.\n\n" ++
  "Simply type: *PHOTOS*\n\n" ++
  "For more information, *Call 0707 787884.*"

def agent_text : String :=
  "👩🏽‍💼 Connecting you to a Neochicks rep… You can also call " ++ CALL_LINE ++ "."

def issues_text : String :=
  "🛠️ Quick checks for better hatching:\n" ++
  "1) Temperature 37.8°C (±0.2)\n" ++
  "2) Humidity 55–60% set / ~65% at hatch\n" ++
  "3) Turning 3–5×/day (auto OK)\n" ++
  "4) Candle day 7 & 14; remove clears\n" ++
  "5) Ventilation okay (no drafts)\n" ++
  "6) Disinfect after each hatch\n\n" ++
  "For urgent help, call " ++ CALL_LINE ++ "."

def delivery_terms_text : String :=
  "🚚 Delivery terms: Nairobi → same day; other counties → 24 hours. " ++ PAYMENT_NOTE

def cancel_prompt_text : String :=
  "Are you sure you want to cancel this order? Reply *YES* to confirm, or *NO* to continue."

def county_prompt_text : String :=
  "Please type your *county* name (e.g., Nairobi, Nakuru, Mombasa)."

def name_prompt_text : String :=
  "Please type your *full name* (e.g., Jane Wanjiku)."

def phone_request_text : String :=
  "Thanks! Now your *phone number* (for delivery coordination):"

def phone_short_text : String :=
  "That phone seems short. Please type a valid phone (e.g., 07XX... or +2547...)."

def edit_menu_text : String :=
  "What would you like to change?\n" ++
  "1) Name\n2) Phone\n3) County\n4) Model (capacity)\n\n" ++
  "Reply with *1, 2, 3,* or *4*.\n" ++
  "Or type *CANCEL* to discard and go back to the main menu."

def cant_find_capacity_text : String :=
  "I couldn" ++ apos ++ "t find that capacity. Try 204, 264, 528, 1056, 5280 etc."

def order_confirmed_text : String :=
  "✅ *Order confirmed!*\nI’ve sent your pro-forma invoice. Our team will contact you shortly to finalize delivery. Thank you for choosing Neochicks."

def fallback_intro_text : String := "I didn’t quite get that.\n\n"

/-! ## Counties, ETA, proforma (src/app.py `COUNTIES`, `guess_county`,
`delivery_eta_text`, `build_proforma_text`) -/

def COUNTIES : List String :=
  ["baringo", "bomet", "bungoma", "busia", "elgeyo marakwet", "embu", "garissa",
   "homa bay", "isiolo", "kajiado", "kakamega", "kericho", "kiambu", "kilifi",
   "kirinyaga", "kisii", "kisumu", "kitui", "kwale", "laikipia", "lamu",
   "machakos", "makueni", "mandera", "marsabit", "meru", "migori", "mombasa",
   "murang" ++ apos ++ "a", "muranga", "nairobi", "nakuru", "nandi", "narok",
   "nyamira", "nyandarua", "nyeri", "samburu", "siaya", "taita taveta",
   "tana river", "tharaka nithi", "trans nzoia", "turkana", "uasin gishu",
   "vihiga", "wajir", "west pokot"]

/-- `cleaned[:-7].strip()` after an `endswith(" county")` test. -/
def dropCountySuffix (s : String) : String :=
  pyStrip ((s.toList.take (s.toList.length - 7)).asString)

def guess_county (text : String) : Option String :=
  let cleaned := pyStrip (lettersOnly (pyLower text))
  if cleaned = "" then none
  else if cleaned ∈ COUNTIES then some cleaned
  else if strEndsWith " county" cleaned = true ∧ dropCountySuffix cleaned ∈ COUNTIES then
    some (dropCountySuffix cleaned)
  else
    let parts := splitWS cleaned
    let joined := String.intercalate " " parts
    if (parts.length = 2 ∨ parts.length = 3) ∧ joined ∈ COUNTIES then some joined
    else none

def delivery_eta_text (county : String) : String :=
  let key := match splitWS (pyLower (pyStrip county)) with | [] => "" | w :: _ => w
  if key = "nairobi" then "same day" else "24 hours"

def build_proforma_text (sess : Session) : String :=
  let county := sess.last_county.getD "-"
  let eta := sess.last_eta.getD "24 hours"
  let model := (sess.last_product.map Item.name).getD "—"
  let capS := (sess.last_product.map (fun p => Nat.repr p.capacity)).getD "—"
  let priceS := (sess.last_product.map (fun p => ksh p.price)).getD "—"
  let name := sess.customer_name.getD ""
  let phone := sess.customer_phone.getD ""
  "🧾 *Your Order Details:*\n\n" ++
  "Customer: " ++ name ++ "\n" ++
  "Phone: " ++ phone ++ "\n" ++
  "County: " ++ county ++ "\n" ++
  "Item: " ++ model ++ " (" ++ capS ++ " eggs)\n" ++
  "Price: " ++ priceS ++ "\n" ++
  "Delivery: " ++ eta ++ " | " ++ PAYMENT_NOTE ++ "\n" ++
  "—\n" ++
  "If this looks correct, reply *CONFIRM* to place the order, or type *EDIT* to change details.\n" ++
  "Type *CANCEL* to discard and go back to the main menu."

/-! ## Catalog page and item-detail texts -/

def product_line (p : Item) : String :=
  "- " ++ p.name ++ (if p.solar then "(Solar/Electric)" else "") ++ "→" ++
  ksh p.price ++ (if p.free_gen then " + *Generator*" else "")

def price_footer : String :=
  "\n-------------------\nPlease type the *capacity that you want* (e.g. 64, 528 etc) and I will give you its details 🙏"

/-- `price_page_text(page)` at the fixed call-site page size 20. -/
def price_page_text (page : Nat) : String :=
  let items := sortByCap CATALOG
  let total := items.length
  let pages := max 1 ((total + 20 - 1) / 20)
  let pageC := max 1 (min page pages)
  let start := (pageC - 1) * 20
  let chunk := (items.drop start).take 20
  "🐣 *Capacities with Prices*\n" ++ String.intercalate "\n" (chunk.map product_line) ++ price_footer

/-- `max(1, (total + per_page - 1) // per_page)` for the real catalog. -/
def price_pages : Nat := max 1 ((CATALOG.length + 20 - 1) / 20)

def item_text (p : Item) : String :=
  "📦 *" ++ p.name ++ "*" ++ (if p.solar then " (Solar)" else "") ++
  "\nCapacity: " ++ Nat.repr p.capacity ++ " eggs\nPrice: " ++ ksh p.price ++
  (if p.free_gen then "\n🎁 Includes *Free Backup Generator*" else "")

def item_caption (p : Item) : String :=
  p.name ++ " — " ++ ksh p.price ++
  "\n\n -  -  -  -  -  -  -  -  -  -  -  -  -  -  -  - \n" ++
  "Reply with your *county* and I will tell you how long it takes to deliver there 🙏" ++
  PAYMENT_NOTE ++ "."

def county_ack_text (county : String) : String :=
  "📍 " ++ pyTitle county ++ " → Typical delivery " ++ delivery_eta_text county ++
  ". " ++ PAYMENT_NOTE ++ ".\n" ++
  "Great! Please share your *full name* for the pro-forma."

/-! ## The router (src/app.py `brain_reply`) -/

def cancelKws : List String :=
  ["cancel", "stop", "abort", "start over", "back to menu", "main menu", "menu"]

/-- The states for which the cancel vocabulary is honoured (line 755). -/
def cancelStates : List SState :=
  [.awaitName, .awaitPhone, .awaitConfirm,
   .editMenu, .editName, .editPhone, .editCounty, .editModel,
   .cancelConfirm, .awaitCounty]

def cancelStatesOpt : List (Option SState) := cancelStates.map some

/-- `_non_interrupt_states` (line 784): same set as the cancel states. -/
def nonInterruptStates : List SState := cancelStates

def nonInterruptStatesOpt : List (Option SState) := nonInterruptStates.map some

/-- States whose proforma is re-emitted when a cancellation is declined. -/
def resumeStatesOpt : List (Option SState) :=
  [some .awaitConfirm, some .editMenu, some .editName, some .editPhone,
   some .editCounty, some .editModel]

def incubator_phrases : List String :=
  ["eggs incubator", "egg incubators", "eggs incubators"]

def eggs_phrases_global : List String :=
  ["fertile eggs", "fertilised eggs", "fertilized eggs", "kienyeji eggs",
   "eggs for incubation", "incubation eggs"]

def eggs_phrases_inner : List String :=
  ["fertile eggs", "fertilised eggs", "fertilized eggs", "kienyeji eggs",
   "eggs for incubation"]

def cages_phrases : List String :=
  ["cage", "cages", "battery cage", "layers cage"]

def greetings : List String :=
  ["", "hi", "hello", "start", "want", "incubator", "need an incubator",
   "hi neochicks", "good morning", "good afternoon"]

def agentKws : List String :=
  ["talk to an agent", "speak to an agent", "agent", "human", "representative",
   "talk to a rep", "customer care", "customer support"]

def issueKws : List String :=
  ["troubleshoot", "hatch rate", "problem", "fault", "issue", "issues",
   "help with incubator"]

def priceKws : List String :=
  ["capacities", "capacity", "capacities with prices", "prices", "price",
   "bei", "gharama"]

/-- The dispatch cascade run inside the confirmation branch (lines 1242-1285):
email, PDF write, media upload, then send-by-id → send-by-link → plain text,
each subsequent step attempted only if the previous channel failed. -/
def dispatch_steps (ext : Ext) : List DispatchStep :=
  [DispatchStep.emailSent ext.emailOk, DispatchStep.pdfWritten ext.pdfOk,
   DispatchStep.mediaUpload ext.mediaId] ++
  (match ext.mediaId with
   | some _ =>
     DispatchStep.docById ext.docByIdOk ::
       (if ext.docByIdOk then [] else
         DispatchStep.docByLink ext.docByLinkOk ::
           (if ext.docByLinkOk then [] else [DispatchStep.textLink ext.textOk]))
   | none =>
     DispatchStep.docByLink ext.docByLinkOk ::
       (if ext.docByLinkOk then [] else [DispatchStep.textLink ext.textOk]))

/-- The CONFIRM branch (lines 1207-1297): assemble the order, run the
dispatch cascade, reset the session; every dispatch failure is swallowed. -/
def confirm_result (ext : Ext) (sess : Session) : BrainResult :=
  let p := sess.last_product
  let county := sess.last_county.getD "-"
  let eta := sess.last_eta.getD (delivery_eta_text county)
  let order : Order :=
    { id := ext.orderId
      wa_from := ext.fromWa
      customer_name := sess.customer_name.getD ""
      customer_phone := sess.customer_phone.getD ""
      county := county
      model := (p.map Item.name).getD ""
      capacity := (p.map Item.capacity).getD 0
      price := (p.map Item.price).getD 0
      eta := eta
      created_at_utc := ext.createdAt ++ "Z" }
  { session := {}
    reply := { text := some order_confirmed_text }
    order := some order
    steps := dispatch_steps ext }

/-- The `prices`-state capacity branch (lines 1056-1081): returns a result
only on its inner success path, otherwise control falls through. -/
def prices_cap_branch (sess : Session) (low : String) : Option BrainResult :=
  if sess.state = some SState.prices then
    match firstCap low with
    | some cap =>
      match find_by_capacity cap with
      | some p =>
        some { session := { sess with last_product := some p }
               reply := { text := some (item_text p)
                          mediaUrl := if p.image = "" then none else some p.image
                          caption := if p.image = "" then none else some (item_caption p) } }
      | none => none
    | none => none
  else none

/-- Lines 1086-1321 of `brain_reply`: the rules evaluated after the
`prices`-state capacity branch (`t` is the stripped text, `low` its
lowercase form, both computed once at the top of `brain_reply`). -/
def brain_reply_rest (ext : Ext) (t low : String) (sess : Session) : BrainResult :=
  if occurs "delivery" low = true ∨ occurs "deliver" low = true ∨
      occurs "delivery terms" low = true then
    { session := sess, reply := { text := some delivery_terms_text } }
  else if sess.state = some SState.awaitCounty then
    if pyStrip (lettersOnly low) = "" then
      { session := sess, reply := { text := some county_prompt_text } }
    else
      { session := { sess with last_county := some (pyTitle (pyStrip (lettersOnly low)))
                               last_eta := some (delivery_eta_text (pyStrip (lettersOnly low)))
                               state := some SState.awaitName }
        reply := { text := some (county_ack_text (pyStrip (lettersOnly low))) } }
  else if sess.state = some SState.awaitName then
    if (pyStrip t).length < 2 then
      { session := sess, reply := { text := some name_prompt_text } }
    else
      { session := { sess with customer_name := some (pyStrip t), state := some SState.awaitPhone }
        reply := { text := some phone_request_text } }
  else if sess.state = some SState.awaitPhone then
    if countDigits (phoneChars t) < 9 then
      { session := sess, reply := { text := some phone_short_text } }
    else
      { session := { sess with customer_phone := some (phoneChars t), state := some SState.awaitConfirm }
        reply := { text := some (build_proforma_text
          { sess with customer_phone := some (phoneChars t), state := some SState.awaitConfirm }) } }
  else if sess.state = some SState.awaitConfirm ∧ occurs "edit" low = true then
    { session := { sess with state := some SState.editMenu }
      reply := { text := some edit_menu_text } }
  else if sess.state = some SState.editMenu then
    if pyStrip (choiceChars low) ∈ ["1", "name"] then
      { session := { sess with state := some SState.editName }
        reply := { text := some "Okay — please type the *correct full name*:" } }
    else if pyStrip (choiceChars low) ∈ ["2", "phone"] then
      { session := { sess with state := some SState.editPhone }
        reply := { text := some "Okay — please type the *correct phone number* (07XX... or +2547...):" } }
    else if pyStrip (choiceChars low) ∈ ["3", "county"] then
      { session := { sess with state := some SState.editCounty }
        reply := { text := some "Okay — please type your *county* (e.g., Nairobi, Nakuru, Mombasa):" } }
    else if pyStrip (choiceChars low) ∈ ["4", "model", "capacity"] then
      { session := { sess with state := some SState.editModel }
        reply := { text := some "Type the *capacity number* you want (e.g., 204, 528, 1056):" } }
    else
      { session := sess, reply := { text := some "Please reply with *1, 2, 3,* or *4*." } }
  else if sess.state = some SState.editName then
    if (pyStrip t).length < 2 then
      { session := sess
        reply := { text := some "That looks too short. Please type your *full name* (e.g., Jane Wanjiku)." } }
    else
      { session := { sess with customer_name := some (pyStrip t), state := some SState.awaitConfirm }
        reply := { text := some (build_proforma_text
          { sess with customer_name := some (pyStrip t), state := some SState.awaitConfirm }) } }
  else if sess.state = some SState.editPhone then
    if countDigits (phoneChars t) < 9 then
      { session := sess, reply := { text := some phone_short_text } }
    else
      { session := { sess with customer_phone := some (phoneChars t), state := some SState.awaitConfirm }
        reply := { text := some (build_proforma_text
          { sess with customer_phone := some (phoneChars t), state := some SState.awaitConfirm }) } }
  else if sess.state = some SState.editCounty then
    if pyStrip (lettersOnly (pyLower t)) = "" then
      { session := sess, reply := { text := some county_prompt_text } }
    else
      { session := { sess with last_county := some (pyTitle (pyStrip (lettersOnly (pyLower t))))
                               last_eta := some (delivery_eta_text (pyStrip (lettersOnly (pyLower t))))
                               state := some SState.awaitConfirm }
        reply := { text := some (build_proforma_text
          { sess with last_county := some (pyTitle (pyStrip (lettersOnly (pyLower t))))
                      last_eta := some (delivery_eta_text (pyStrip (lettersOnly (pyLower t))))
                      state := some SState.awaitConfirm }) } }
  else if sess.state = some SState.editModel then
    match firstCap low with
    | none =>
      { session := sess
        reply := { text := some "Please type just the *capacity number* (e.g., 204, 528, 1056)." } }
    | some cap =>
      match find_by_capacity cap with
      | none => { session := sess, reply := { text := some cant_find_capacity_text } }
      | some p =>
        { session := { sess with last_product := some p, state := some SState.awaitConfirm }
          reply := { text := some (build_proforma_text
            { sess with last_product := some p, state := some SState.awaitConfirm }) } }
  else if sess.state = some SState.awaitConfirm ∧ low = "confirm" then
    confirm_result ext sess
  else
    match guess_county low with
    | some c =>
      { session := { sess with last_county := some (pyTitle c)
                               last_eta := some (delivery_eta_text c)
                               state := some SState.awaitName }
        reply := { text := some (county_ack_text c) } }
    | none =>
      { session := {}
        reply := { text := some (fallback_intro_text ++ main_menu_text
          (if ext.afterHours then "\n\n⏰ " ++ AFTER_HOURS_NOTE else "")) } }

/-- The full priority-ordered rule chain of src/app.py lines 741-1321,
over the stripped text `t`, its lowercase form `low` and the digit string
`digits` (each computed once at the top of `brain_reply`). -/
def brain_reply_main (ext : Ext) (t low digits : String) (sess : Session) : BrainResult :=
  if containsAny low cancelKws = true ∧ sess.state ∈ cancelStatesOpt ∧
      sess.state ≠ some SState.cancelConfirm then
    { session := { sess with prev_state := sess.state, state := some SState.cancelConfirm }
      reply := { text := some cancel_prompt_text } }
  else if sess.state = some SState.cancelConfirm ∧ low ∈ ["yes", "y", "confirm", "ok"] then
    { session := {}
      reply := { text := some ("❌ Order cancelled. You’re back at the main menu.\n\n" ++
                               main_menu_text "") } }
  else if sess.state = some SState.cancelConfirm ∧ low ∈ ["no", "n", "back"] then
    if sess.prev_state ∈ resumeStatesOpt then
      { session := { sess with state := sess.prev_state }
        reply := { text := some ("Okay — resuming your order.\n\n" ++
          build_proforma_text { sess with state := sess.prev_state }) } }
    else
      { session := { sess with state := sess.prev_state }
        reply := { text := some "Okay — continue." } }
  else if sess.state ∉ nonInterruptStatesOpt ∧
      (digits = "1" ∨ containsAny low incubator_phrases = true) then
    { session := { sess with state := some SState.prices }
      reply := { text := some incubator_text } }
  else if sess.state ∉ nonInterruptStatesOpt ∧
      (digits = "3" ∨ containsAny low eggs_phrases_global = true) then
    { session := { sess with state := some SState.eggsMenu }
      reply := { text := some fertile_eggs_text } }
  else if sess.state ∉ nonInterruptStatesOpt ∧
      (digits = "2" ∨ isChicksWord low = true) then
    { session := { sess with state := some SState.chicksMenu }
      reply := { text := some chicks_info_text } }
  else if sess.state ∉ nonInterruptStatesOpt ∧
      (digits = "4" ∨ containsAny low cages_phrases = true) then
    { session := { sess with state := some SState.cagesMenu }
      reply := { text := some cages_text } }
  else if low ∈ greetings ∧ sess.state = none then
    { session := sess
      reply := { text := some (main_menu_text
        (if ext.afterHours then "\n\n⏰ " ++ AFTER_HOURS_NOTE else "")) } }
  else if sess.state = none ∧ digits = "1" then
    { session := { sess with state := some SState.prices, page := 1 }
      reply := { text := some (price_page_text 1) } }
  else if sess.state = none ∧ (digits = "2" ∨ isChicksWord low = true) then
    { session := { sess with state := some SState.chicksMenu }
      reply := { text := some chicks_info_text } }
  else if sess.state = some SState.chicksMenu ∧
      (occurs "photo" low = true ∨ occurs "photos" low = true) then
    { session := {}, reply := {} }
  else if sess.state = some SState.chicksMenu ∧ low ∈ ["menu", "main menu", "back"] then
    { session := {}
      reply := { text := some (main_menu_text
        (if ext.afterHours then "\n\n⏰ " ++ AFTER_HOURS_NOTE else "")) } }
  else if sess.state = some SState.chicksMenu ∧
      (digits = "3" ∨ containsAny low eggs_phrases_inner = true) then
    { session := { sess with state := some SState.eggsMenu }
      reply := { text := some fertile_eggs_text } }
  else if sess.state = some SState.eggsMenu ∧
      (occurs "photo" low = true ∨ occurs "photos" low = true) then
    { session := {}, reply := {} }
  else if sess.state = some SState.eggsMenu ∧ low ∈ ["menu", "main menu", "back"] then
    { session := {}, reply := { text := some (main_menu_text "") } }
  else if sess.state = some SState.eggsMenu ∧
      (digits = "4" ∨ containsAny low cages_phrases = true) then
    { session := { sess with state := some SState.cagesMenu }
      reply := { text := some cages_text } }
  else if sess.state = some SState.cagesMenu ∧
      (occurs "photo" low = true ∨ occurs "photos" low = true) then
    { session := {}, reply := {} }
  else if containsAny low agentKws = true then
    { session := {}, reply := { text := some agent_text } }
  else if occurs "incubator issues" low = true ∨ containsAny low issueKws = true then
    { session := { sess with state := none }, reply := { text := some issues_text } }
  else if containsAny low priceKws = true then
    { session := { sess with state := some SState.prices, page := 1 }
      reply := { text := some (price_page_text 1) } }
  else if sess.state = some SState.prices ∧ low ∈ ["next", "more"] then
    { session := { sess with page := sess.page + 1 }
      reply := { text := some (price_page_text (sess.page + 1)) } }
  else if sess.state = some SState.prices ∧ low ∈ ["back", "prev", "previous"] then
    { session := { sess with page := max 1 (sess.page - 1) }
      reply := { text := some (price_page_text (max 1 (sess.page - 1))) } }
  else
    match prices_cap_branch sess low with
    | some r => r
    | none => brain_reply_rest ext t low sess

/-- `brain_reply(text)` for one customer session: strips and lowercases the
text once (src/app.py lines 742-748) and runs the rule chain. -/
def brain_reply (ext : Ext) (text : String) (sess : Session) : BrainResult :=
  brain_reply_main ext (pyStrip text) (pyLower (pyStrip text))
    (digitsOf (pyLower (pyStrip text))) sess

/-! ## Reachable sessions -/

/-- Sessions reachable from the lazily-created default session by any
sequence of inbound messages under any external outcomes. -/
inductive Reachable : Session → Prop
  | base : Reachable defaultSession
  | step (ext : Ext) (text : String) (s : Session) :
      Reachable s → Reachable (brain_reply ext text s).session

/-- Default external outcomes (all dispatch channels failing, business hours). -/
def ext0 : Ext := {}

/-! ## Invoice layout arithmetic (src/app.py `generate_invoice_pdf`) -/

def FOOTER_H : Int := 16
def GAP_BEFORE_FOOTER : Int := 4
def min_sig_h : Int := 10
def max_sig_h : Int := 22
/-- A4 page height in mm (`pdf.h`). -/
def page_h : Int := 297
/-- Bottom margin from `set_auto_page_break(auto=True, margin=15)`. -/
def b_margin : Int := 15
/-- Top margin from `set_margins(15, 15, 15)`. -/
def t_margin : Int := 15

/-- `footer_top = page_h - pdf.b_margin - FOOTER_H` (line 470). -/
def footer_top : Int := page_h - b_margin - FOOTER_H

/-- Y cursor reached just before the signature section, summing the fixed
cell heights of the header (to y=42), Bill-To block (to 74), table header
(82), the item row of `L` wrapped description lines (`row_bottom =
max(y0+8, y0+8L)` then `ln(6)`), the two totals rows and `ln(6)` (+22),
and the notes block (+35): `82 + 8*max(1,L) + 63`. -/
def y_before_sig (L : Nat) : Int := 82 + 8 * (max 1 (L : Int)) + 63

/-- Lines 474-475: if the cursor is too low, nudge it up to
`max(t_margin, footer_top - min_sig_h)` so the footer still fits. -/
def nudged_y (cur : Int) : Int :=
  if footer_top - min_sig_h < cur then max t_margin (footer_top - min_sig_h) else cur

/-- The space remaining above the reserved footer region (line 478). -/
def sig_remaining (cur : Int) : Int := footer_top - GAP_BEFORE_FOOTER - nudged_y cur

/-- Line 479: `sig_h = max(min_sig_h, min(max_sig_h, remaining))`. -/
def sig_h (cur : Int) : Int := max min_sig_h (min max_sig_h (sig_remaining cur))

/-- Line 504: `pdf.set_y(footer_top)` — the footer is drawn at the reserved
position whatever the current cursor is. -/
def footer_y (_cur : Int) : Int := footer_top

/-- C9: the signature block height is the space remaining above the
reserved footer region clamped into [10, 22], and the footer is drawn at
the reserved position above the bottom margin of the first page, for every
description line count `L` (i.e. however much vertical space the preceding
blocks consumed). -/
theorem c9_invoice_footer_layout (L : Nat) :
    min_sig_h ≤ sig_h (y_before_sig L)
    ∧ sig_h (y_before_sig L) ≤ max_sig_h
    ∧ (min_sig_h ≤ sig_remaining (y_before_sig L) →
        sig_remaining (y_before_sig L) ≤ max_sig_h →
        sig_h (y_before_sig L) = sig_remaining (y_before_sig L))
    ∧ footer_y (y_before_sig L) = page_h - b_margin - FOOTER_H
    ∧ (∀ cur cur' : Int, footer_y cur = footer_y cur')
    ∧ footer_y (y_before_sig L) + 6 ≤ page_h - b_margin := by
  refine ⟨?_, ?_, ?_, ?_, fun _ _ => rfl, ?_⟩ <;>
    simp only [sig_h, sig_remaining, nudged_y, y_before_sig, footer_y, footer_top,
      page_h, b_margin, t_margin, FOOTER_H, GAP_BEFORE_FOOTER, min_sig_h, max_sig_h,
      max_def, min_def] <;>
    (try split_ifs) <;> omega

/-- Witness for C9 at two description lines (the nominal invoice) and at
twelve lines, where the remaining space 21 lies inside the clamp range and
the exact-fit branch of the theorem applies. -/
theorem c9_invoice_footer_layout_witness :
    (min_sig_h ≤ sig_h (y_before_sig 2) ∧ sig_h (y_before_sig 2) ≤ max_sig_h ∧
      footer_y (y_before_sig 2) = page_h - b_margin - FOOTER_H) ∧
    (min_sig_h ≤ sig_remaining (y_before_sig 12) ∧
      sig_remaining (y_before_sig 12) ≤ max_sig_h ∧
      sig_h (y_before_sig 12) = sig_remaining (y_before_sig 12)) :=
  ⟨⟨(c9_invoice_footer_layout 2).1, (c9_invoice_footer_layout 2).2.1,
    (c9_invoice_footer_layout 2).2.2.2.1⟩,
   by decide, by decide,
   (c9_invoice_footer_layout 12).2.2.1 (by decide) (by decide)⟩

/-! ## C7: delivery-terms trigger -/

/-- C7 counterexample: the claim says a delivery-terms trigger transitions
every session to the `await_county` phase; in fact the rule at line 1086
answers in place and never changes the session — from `Idle` the state
stays `none`, not `await_county`. -/
theorem c7_counterexample :
    (brain_reply ext0 "delivery" defaultSession).session.state ≠ some SState.awaitCounty ∧
    (brain_reply ext0 "delivery" defaultSession).session = defaultSession := by
  exact ⟨by decide, rfl⟩

/-- C7 (amended): in every phase, the delivery-terms trigger `delivery` is
answered with the fixed delivery-terms text and the session is left
completely unchanged — it is never transitioned to `await_county`. -/
theorem c7_delivery_answered_in_place (ext : Ext) (s : Session) :
    brain_reply ext "delivery" s =
      { session := s, reply := { text := some delivery_terms_text } } := by
  obtain ⟨st, pg, pv, lp, lc, le, cn, cp⟩ := s
  cases st with
  | none => rfl
  | some st => cases st <;> rfl

/-! ## C8: prices pagination -/

/-- A `prices`-phase session with the default cursor 1. -/
def sPrices : Session := { state := some SState.prices }

/-- C8 counterexample: with 18 catalog items and page size 20 there is a
single page, yet `next` stores cursor 2 — the stored cursor is not clamped
into `[1, pageCount]` as the claim states (only the rendered page is). -/
theorem c8_counterexample :
    price_pages = 1 ∧
    (brain_reply ext0 "next" sPrices).session.page = 2 ∧
    ¬((brain_reply ext0 "next" sPrices).session.page ≤ price_pages) := by
  exact ⟨rfl, rfl, by decide⟩

/-- C8 (amended): in the `prices` phase, `next` increments the stored page
cursor by one with no upper clamp and `back` decrements it clamping below
at 1; the phase is unchanged and the reply renders the new cursor's page
(display-clamped inside `price_page_text`). -/
theorem c8_next_back (ext : Ext) (s : Session) (h : s.state = some SState.prices) :
    brain_reply ext "next" s =
      { session := { s with page := s.page + 1 }
        reply := { text := some (price_page_text (s.page + 1)) } } ∧
    brain_reply ext "back" s =
      { session := { s with page := max 1 (s.page - 1) }
        reply := { text := some (price_page_text (max 1 (s.page - 1))) } } := by
  obtain ⟨st, pg, pv, lp, lc, le, cn, cp⟩ := s
  simp only [Session.state] at h
  subst h
  exact ⟨rfl, rfl⟩

/-- Witness for C8 at the concrete `prices` session with cursor 1. -/
theorem c8_next_back_witness :
    brain_reply ext0 "next" sPrices =
      { session := { sPrices with page := 2 }
        reply := { text := some (price_page_text 2) } } ∧
    brain_reply ext0 "back" sPrices =
      { session := { sPrices with page := 1 }
        reply := { text := some (price_page_text 1) } } :=
  c8_next_back ext0 sPrices rfl

/-! ## Rule-by-rule characterisation of the chain -/

/-- None of the rules of the main `brain_reply` chain (before line 1086)
fires: the exact negation of each guard, in source order. -/
abbrev noMainRule (low digits : String) (sess : Session) : Prop :=
  ¬(containsAny low cancelKws = true ∧ sess.state ∈ cancelStatesOpt ∧
      sess.state ≠ some SState.cancelConfirm) ∧
  ¬(sess.state = some SState.cancelConfirm ∧ low ∈ ["yes", "y", "confirm", "ok"]) ∧
  ¬(sess.state = some SState.cancelConfirm ∧ low ∈ ["no", "n", "back"]) ∧
  ¬(sess.state ∉ nonInterruptStatesOpt ∧
      (digits = "1" ∨ containsAny low incubator_phrases = true)) ∧
  ¬(sess.state ∉ nonInterruptStatesOpt ∧
      (digits = "3" ∨ containsAny low eggs_phrases_global = true)) ∧
  ¬(sess.state ∉ nonInterruptStatesOpt ∧
      (digits = "2" ∨ isChicksWord low = true)) ∧
  ¬(sess.state ∉ nonInterruptStatesOpt ∧
      (digits = "4" ∨ containsAny low cages_phrases = true)) ∧
  ¬(low ∈ greetings ∧ sess.state = none) ∧
  ¬(sess.state = none ∧ digits = "1") ∧
  ¬(sess.state = none ∧ (digits = "2" ∨ isChicksWord low = true)) ∧
  ¬(sess.state = some SState.chicksMenu ∧
      (occurs "photo" low = true ∨ occurs "photos" low = true)) ∧
  ¬(sess.state = some SState.chicksMenu ∧ low ∈ ["menu", "main menu", "back"]) ∧
  ¬(sess.state = some SState.chicksMenu ∧
      (digits = "3" ∨ containsAny low eggs_phrases_inner = true)) ∧
  ¬(sess.state = some SState.eggsMenu ∧
      (occurs "photo" low = true ∨ occurs "photos" low = true)) ∧
  ¬(sess.state = some SState.eggsMenu ∧ low ∈ ["menu", "main menu", "back"]) ∧
  ¬(sess.state = some SState.eggsMenu ∧
      (digits = "4" ∨ containsAny low cages_phrases = true)) ∧
  ¬(sess.state = some SState.cagesMenu ∧
      (occurs "photo" low = true ∨ occurs "photos" low = true)) ∧
  ¬(containsAny low agentKws = true) ∧
  ¬(occurs "incubator issues" low = true ∨ containsAny low issueKws = true) ∧
  ¬(containsAny low priceKws = true) ∧
  ¬(sess.state = some SState.prices ∧ low ∈ ["next", "more"]) ∧
  ¬(sess.state = some SState.prices ∧ low ∈ ["back", "prev", "previous"]) ∧
  prices_cap_branch sess low = none

/-- None of the rules of `brain_reply_rest` fires before the stateless
fallback: the exact negation of each guard, in source order. -/
abbrev noRestRule (low : String) (sess : Session) : Prop :=
  ¬(occurs "delivery" low = true ∨ occurs "deliver" low = true ∨
      occurs "delivery terms" low = true) ∧
  ¬(sess.state = some SState.awaitCounty) ∧
  ¬(sess.state = some SState.awaitName) ∧
  ¬(sess.state = some SState.awaitPhone) ∧
  ¬(sess.state = some SState.awaitConfirm ∧ occurs "edit" low = true) ∧
  ¬(sess.state = some SState.editMenu) ∧
  ¬(sess.state = some SState.editName) ∧
  ¬(sess.state = some SState.editPhone) ∧
  ¬(sess.state = some SState.editCounty) ∧
  ¬(sess.state = some SState.editModel) ∧
  ¬(sess.state = some SState.awaitConfirm ∧ low = "confirm") ∧
  guess_county low = none

theorem brain_reply_eq_rest (ext : Ext) (text : String) (sess : Session)
    (h : noMainRule (pyLower (pyStrip text)) (digitsOf (pyLower (pyStrip text))) sess) :
    brain_reply ext text sess =
      brain_reply_rest ext (pyStrip text) (pyLower (pyStrip text)) sess := by
  obtain ⟨h1, h2, h3, h4, h5, h6, h7, h8, h9, h10, h11, h12, h13, h14, h15, h16, h17,
    h18, h19, h20, h21, h22, h23⟩ := h
  simp only [brain_reply, brain_reply_main]
  rw [if_neg h1, if_neg h2, if_neg h3, if_neg h4, if_neg h5, if_neg h6, if_neg h7,
    if_neg h8, if_neg h9, if_neg h10, if_neg h11, if_neg h12, if_neg h13, if_neg h14,
    if_neg h15, if_neg h16, if_neg h17, if_neg h18, if_neg h19, if_neg h20, if_neg h21,
    if_neg h22, h23]

theorem rest_eq_fallback (ext : Ext) (t low : String) (sess : Session)
    (h : noRestRule low sess) :
    brain_reply_rest ext t low sess =
      { session := {}
        reply := { text := some (fallback_intro_text ++
          main_menu_text (if ext.afterHours then "\n\n⏰ " ++ AFTER_HOURS_NOTE else "")) } } := by
  obtain ⟨g1, g2, g3, g4, g5, g6, g7, g8, g9, g10, g11, g12⟩ := h
  simp only [brain_reply_rest]
  rw [if_neg g1, if_neg g2, if_neg g3, if_neg g4, if_neg g5, if_neg g6, if_neg g7,
    if_neg g8, if_neg g9, if_neg g10, if_neg g11, g12]

/-! ## C10: the stateless fallback -/

/-- No routing rule at all claims the input. -/
abbrev noRuleMatches (text : String) (sess : Session) : Prop :=
  noMainRule (pyLower (pyStrip text)) (digitsOf (pyLower (pyStrip text))) sess ∧
  noRestRule (pyLower (pyStrip text)) sess

/-- C10: any input matched by no routing rule replaces the entire session
with the default value (phase `none`, page 1, every collected field
discarded) and replies with the main menu. -/
theorem c10_unmatched_input_resets_session (ext : Ext) (text : String) (sess : Session)
    (h : noRuleMatches text sess) :
    brain_reply ext text sess =
      { session := defaultSession
        reply := { text := some (fallback_intro_text ++
          main_menu_text (if ext.afterHours then "\n\n⏰ " ++ AFTER_HOURS_NOTE else "")) } } := by
  rw [brain_reply_eq_rest ext text sess h.1,
    rest_eq_fallback ext (pyStrip text) (pyLower (pyStrip text)) sess h.2]
  rfl

/-- A fully-collected `await_confirm` session (the pro-forma stage). -/
def sConfirmStage : Session :=
  { state := some SState.awaitConfirm
    last_product := some ⟨"616 Eggs", 616, 66000, false, true,
      "https://neochickspoultry.com/wp-content/uploads/2022/01/528-inc-600x800.png"⟩
    last_county := some "Nakuru"
    last_eta := some "24 hours"
    customer_name := some "Jane Wanjiku"
    customer_phone := some "0712345678" }

/-- A cancellation-confirmation session remembering the pro-forma stage. -/
def sCancelStage : Session :=
  { sConfirmStage with state := some SState.cancelConfirm
                       prev_state := some SState.awaitConfirm }

/-- Witness for C10: unrecognized text in `await_confirm`, and a reply
outside the yes/no vocabulary in `cancel_confirm`, both reset the full
session to the default value. -/
theorem c10_unmatched_input_resets_session_witness :
    (noRuleMatches "zzz" sConfirmStage ∧
      brain_reply ext0 "zzz" sConfirmStage =
        { session := defaultSession
          reply := { text := some (fallback_intro_text ++ main_menu_text "") } }) ∧
    (noRuleMatches "maybe" sCancelStage ∧
      brain_reply ext0 "maybe" sCancelStage =
        { session := defaultSession
          reply := { text := some (fallback_intro_text ++ main_menu_text "") } }) :=
  by
  have h1 : noRuleMatches "zzz" sConfirmStage := by
    refine ⟨⟨?_, ?_, ?_, ?_, ?_, ?_, ?_, ?_, ?_, ?_, ?_, ?_, ?_, ?_, ?_, ?_, ?_, ?_,
      ?_, ?_, ?_, ?_, ?_⟩, ?_, ?_, ?_, ?_, ?_, ?_, ?_, ?_, ?_, ?_, ?_, ?_⟩ <;> decide
  have h2 : noRuleMatches "maybe" sCancelStage := by
    refine ⟨⟨?_, ?_, ?_, ?_, ?_, ?_, ?_, ?_, ?_, ?_, ?_, ?_, ?_, ?_, ?_, ?_, ?_, ?_,
      ?_, ?_, ?_, ?_, ?_⟩, ?_, ?_, ?_, ?_, ?_, ?_, ?_, ?_, ?_, ?_, ?_, ?_⟩ <;> decide
  exact ⟨⟨h1, c10_unmatched_input_resets_session ext0 "zzz" sConfirmStage h1⟩,
    ⟨h2, c10_unmatched_input_resets_session ext0 "maybe" sCancelStage h2⟩⟩

/-! ## The confirmation path (shared by C2 and C5) -/

theorem noMainRule_confirm (sess : Session)
    (hst : sess.state = some SState.awaitConfirm) :
    noMainRule "confirm" (digitsOf "confirm") sess := by
  refine ⟨?_, ?_, ?_, ?_, ?_, ?_, ?_, ?_, ?_, ?_, ?_, ?_, ?_, ?_, ?_, ?_, ?_, ?_, ?_,
    ?_, ?_, ?_, ?_⟩
  · intro hcon; exact absurd hcon.1 (by decide)
  · intro hcon; simp [hst] at hcon
  · intro hcon; simp [hst] at hcon
  · intro hcon; exact hcon.1 (by rw [hst]; decide)
  · intro hcon; exact hcon.1 (by rw [hst]; decide)
  · intro hcon; exact hcon.1 (by rw [hst]; decide)
  · intro hcon; exact hcon.1 (by rw [hst]; decide)
  · intro hcon; exact absurd hcon.1 (by decide)
  · intro hcon; simp [hst] at hcon
  · intro hcon; simp [hst] at hcon
  · intro hcon; simp [hst] at hcon
  · intro hcon; simp [hst] at hcon
  · intro hcon; simp [hst] at hcon
  · intro hcon; simp [hst] at hcon
  · intro hcon; simp [hst] at hcon
  · intro hcon; simp [hst] at hcon
  · intro hcon; simp [hst] at hcon
  · intro hcon; exact absurd hcon (by decide)
  · intro hcon; exact absurd hcon (by decide)
  · intro hcon; exact absurd hcon (by decide)
  · intro hcon; simp [hst] at hcon
  · intro hcon; simp [hst] at hcon
  · simp [prices_cap_branch, hst]

theorem rest_eq_confirm (ext : Ext) (t low : String) (sess : Session)
    (hst : sess.state = some SState.awaitConfirm) (hlow : low = "confirm") :
    brain_reply_rest ext t low sess = confirm_result ext sess := by
  subst hlow
  simp only [brain_reply_rest]
  rw [if_neg (by decide), if_neg (by simp [hst]), if_neg (by simp [hst]),
    if_neg (by simp [hst]), if_neg (fun hcon => absurd hcon.2 (by decide)),
    if_neg (by simp [hst]), if_neg (by simp [hst]), if_neg (by simp [hst]),
    if_neg (by simp [hst]), if_neg (by simp [hst]),
    if_pos (show sess.state = some SState.awaitConfirm ∧ True from ⟨hst, trivial⟩)]

/-! ## C5: confirmation resets the session regardless of dispatch outcome -/

/-- C5: in `await_confirm`, an input whose stripped lowercase form is the
literal token `confirm` triggers order assembly and the dispatch cascade
and resets the session to the default value, for EVERY external outcome
`ext` — no failure of the email, media-upload, document-send or text-send
steps prevents the order from being created or the session reset. -/
theorem c5_confirm_resets_regardless_of_dispatch (ext : Ext) (text : String) (sess : Session)
    (hst : sess.state = some SState.awaitConfirm)
    (hlow : pyLower (pyStrip text) = "confirm") :
    brain_reply ext text sess = confirm_result ext sess ∧
    (brain_reply ext text sess).session = defaultSession ∧
    (brain_reply ext text sess).order.isSome = true ∧
    (brain_reply ext text sess).reply.text = some order_confirmed_text := by
  have hmain := brain_reply_eq_rest ext text sess (by rw [hlow]; exact noMainRule_confirm sess hst)
  rw [hmain, rest_eq_confirm ext (pyStrip text) (pyLower (pyStrip text)) sess hst hlow]
  exact ⟨rfl, rfl, rfl, rfl⟩

/-- Witness for C5: the token padded with whitespace and in capitals, with
every dispatch channel failing (`ext0`), still creates the order and
resets the session. -/
theorem c5_confirm_resets_regardless_of_dispatch_witness :
    brain_reply ext0 "  CONFIRM  " sConfirmStage = confirm_result ext0 sConfirmStage ∧
    (brain_reply ext0 "  CONFIRM  " sConfirmStage).session = defaultSession ∧
    (brain_reply ext0 "  CONFIRM  " sConfirmStage).order.isSome = true ∧
    (brain_reply ext0 "  CONFIRM  " sConfirmStage).reply.text = some order_confirmed_text :=
  c5_confirm_resets_regardless_of_dispatch ext0 "  CONFIRM  " sConfirmStage rfl (by decide)

/-! ## C2: orders are assembled exactly at await_confirm + confirm token -/

theorem prices_cap_branch_order (sess : Session) (low : String) (r : BrainResult)
    (h : prices_cap_branch sess low = some r) : r.order = none := by
  simp only [prices_cap_branch] at h
  repeat' split at h
  all_goals first
    | exact Option.noConfusion h
    | (injection h with h; subst h; rfl)

theorem rest_order_some (ext : Ext) (t low : String) (sess : Session)
    (h : (brain_reply_rest ext t low sess).order.isSome = true) :
    sess.state = some SState.awaitConfirm ∧ low = "confirm" := by
  delta brain_reply_rest at h
  by_cases g1 : occurs "delivery" low = true ∨ occurs "deliver" low = true ∨
      occurs "delivery terms" low = true
  · rw [if_pos g1] at h; exact Bool.noConfusion h
  rw [if_neg g1] at h
  by_cases g2 : sess.state = some SState.awaitCounty
  · rw [if_pos g2] at h; repeat' split at h
    all_goals exact Bool.noConfusion h
  rw [if_neg g2] at h
  by_cases g3 : sess.state = some SState.awaitName
  · rw [if_pos g3] at h; repeat' split at h
    all_goals exact Bool.noConfusion h
  rw [if_neg g3] at h
  by_cases g4 : sess.state = some SState.awaitPhone
  · rw [if_pos g4] at h; repeat' split at h
    all_goals exact Bool.noConfusion h
  rw [if_neg g4] at h
  by_cases g5 : sess.state = some SState.awaitConfirm ∧ occurs "edit" low = true
  · rw [if_pos g5] at h; exact Bool.noConfusion h
  rw [if_neg g5] at h
  by_cases g6 : sess.state = some SState.editMenu
  · rw [if_pos g6] at h; repeat' split at h
    all_goals exact Bool.noConfusion h
  rw [if_neg g6] at h
  by_cases g7 : sess.state = some SState.editName
  · rw [if_pos g7] at h; repeat' split at h
    all_goals exact Bool.noConfusion h
  rw [if_neg g7] at h
  by_cases g8 : sess.state = some SState.editPhone
  · rw [if_pos g8] at h; repeat' split at h
    all_goals exact Bool.noConfusion h
  rw [if_neg g8] at h
  by_cases g9 : sess.state = some SState.editCounty
  · rw [if_pos g9] at h; repeat' split at h
    all_goals exact Bool.noConfusion h
  rw [if_neg g9] at h
  by_cases g10 : sess.state = some SState.editModel
  · rw [if_pos g10] at h; repeat' split at h
    all_goals exact Bool.noConfusion h
  rw [if_neg g10] at h
  by_cases g11 : sess.state = some SState.awaitConfirm ∧ low = "confirm"
  · exact g11
  rw [if_neg g11] at h
  rcases hgc : guess_county low with _ | c <;> rw [hgc] at h <;> exact Bool.noConfusion h

theorem brain_reply_main_order (ext : Ext) (t low digits : String) (sess : Session)
    (h : (brain_reply_main ext t low digits sess).order.isSome = true) :
    sess.state = some SState.awaitConfirm ∧ low = "confirm" := by
  delta brain_reply_main at h
  by_cases g1 : containsAny low cancelKws = true ∧ sess.state ∈ cancelStatesOpt ∧
      sess.state ≠ some SState.cancelConfirm
  · rw [if_pos g1] at h; exact Bool.noConfusion h
  rw [if_neg g1] at h
  by_cases g2 : sess.state = some SState.cancelConfirm ∧ low ∈ ["yes", "y", "confirm", "ok"]
  · rw [if_pos g2] at h; exact Bool.noConfusion h
  rw [if_neg g2] at h
  by_cases g3 : sess.state = some SState.cancelConfirm ∧ low ∈ ["no", "n", "back"]
  · rw [if_pos g3] at h; repeat' split at h
    all_goals exact Bool.noConfusion h
  rw [if_neg g3] at h
  by_cases g4 : sess.state ∉ nonInterruptStatesOpt ∧
      (digits = "1" ∨ containsAny low incubator_phrases = true)
  · rw [if_pos g4] at h; exact Bool.noConfusion h
  rw [if_neg g4] at h
  by_cases g5 : sess.state ∉ nonInterruptStatesOpt ∧
      (digits = "3" ∨ containsAny low eggs_phrases_global = true)
  · rw [if_pos g5] at h; exact Bool.noConfusion h
  rw [if_neg g5] at h
  by_cases g6 : sess.state ∉ nonInterruptStatesOpt ∧
      (digits = "2" ∨ isChicksWord low = true)
  · rw [if_pos g6] at h; exact Bool.noConfusion h
  rw [if_neg g6] at h
  by_cases g7 : sess.state ∉ nonInterruptStatesOpt ∧
      (digits = "4" ∨ containsAny low cages_phrases = true)
  · rw [if_pos g7] at h; exact Bool.noConfusion h
  rw [if_neg g7] at h
  by_cases g8 : low ∈ greetings ∧ sess.state = none
  · rw [if_pos g8] at h; exact Bool.noConfusion h
  rw [if_neg g8] at h
  by_cases g9 : sess.state = none ∧ digits = "1"
  · rw [if_pos g9] at h; exact Bool.noConfusion h
  rw [if_neg g9] at h
  by_cases g10 : sess.state = none ∧ (digits = "2" ∨ isChicksWord low = true)
  · rw [if_pos g10] at h; exact Bool.noConfusion h
  rw [if_neg g10] at h
  by_cases g11 : sess.state = some SState.chicksMenu ∧
      (occurs "photo" low = true ∨ occurs "photos" low = true)
  · rw [if_pos g11] at h; exact Bool.noConfusion h
  rw [if_neg g11] at h
  by_cases g12 : sess.state = some SState.chicksMenu ∧ low ∈ ["menu", "main menu", "back"]
  · rw [if_pos g12] at h; exact Bool.noConfusion h
  rw [if_neg g12] at h
  by_cases g13 : sess.state = some SState.chicksMenu ∧
      (digits = "3" ∨ containsAny low eggs_phrases_inner = true)
  · rw [if_pos g13] at h; exact Bool.noConfusion h
  rw [if_neg g13] at h
  by_cases g14 : sess.state = some SState.eggsMenu ∧
      (occurs "photo" low = true ∨ occurs "photos" low = true)
  · rw [if_pos g14] at h; exact Bool.noConfusion h
  rw [if_neg g14] at h
  by_cases g15 : sess.state = some SState.eggsMenu ∧ low ∈ ["menu", "main menu", "back"]
  · rw [if_pos g15] at h; exact Bool.noConfusion h
  rw [if_neg g15] at h
  by_cases g16 : sess.state = some SState.eggsMenu ∧
      (digits = "4" ∨ containsAny low cages_phrases = true)
  · rw [if_pos g16] at h; exact Bool.noConfusion h
  rw [if_neg g16] at h
  by_cases g17 : sess.state = some SState.cagesMenu ∧
      (occurs "photo" low = true ∨ occurs "photos" low = true)
  · rw [if_pos g17] at h; exact Bool.noConfusion h
  rw [if_neg g17] at h
  by_cases g18 : containsAny low agentKws = true
  · rw [if_pos g18] at h; exact Bool.noConfusion h
  rw [if_neg g18] at h
  by_cases g19 : occurs "incubator issues" low = true ∨ containsAny low issueKws = true
  · rw [if_pos g19] at h; exact Bool.noConfusion h
  rw [if_neg g19] at h
  by_cases g20 : containsAny low priceKws = true
  · rw [if_pos g20] at h; exact Bool.noConfusion h
  rw [if_neg g20] at h
  by_cases g21 : sess.state = some SState.prices ∧ low ∈ ["next", "more"]
  · rw [if_pos g21] at h; exact Bool.noConfusion h
  rw [if_neg g21] at h
  by_cases g22 : sess.state = some SState.prices ∧ low ∈ ["back", "prev", "previous"]
  · rw [if_pos g22] at h; exact Bool.noConfusion h
  rw [if_neg g22] at h
  rcases hpc : prices_cap_branch sess low with _ | r
  · rw [hpc] at h
    exact rest_order_some ext t low sess h
  · rw [hpc] at h
    have h' : r.order.isSome = true := h
    rw [prices_cap_branch_order sess low r hpc] at h'
    exact Bool.noConfusion h'

/-- C2: an order is assembled exactly when the session phase is
`await_confirm` and the stripped, lowercased input is the literal token
`confirm`; in particular, after a confirmation has reset the session to the
default (phase `none`), sending the token again creates no second order. -/
theorem c2_order_iff_awaitConfirm_token (ext : Ext) (text : String) (sess : Session) :
    (brain_reply ext text sess).order.isSome = true ↔
      (sess.state = some SState.awaitConfirm ∧ pyLower (pyStrip text) = "confirm") := by
  constructor
  · intro h
    exact brain_reply_main_order ext (pyStrip text) (pyLower (pyStrip text))
      (digitsOf (pyLower (pyStrip text))) sess h
  · rintro ⟨hst, hlow⟩
    have hmain := brain_reply_eq_rest ext text sess (by rw [hlow]; exact noMainRule_confirm sess hst)
    rw [hmain, rest_eq_confirm ext (pyStrip text) (pyLower (pyStrip text)) sess hst hlow]
    rfl

/-- Witness for C2: at the pro-forma stage `CONFIRM` creates an order, and
after the session has been reset to the default value (phase `none`),
sending `CONFIRM` again creates no second order. -/
theorem c2_order_iff_awaitConfirm_token_witness :
    (brain_reply ext0 "CONFIRM" sConfirmStage).order.isSome = true ∧
    ¬((brain_reply ext0 "CONFIRM" defaultSession).order.isSome = true) :=
  ⟨(c2_order_iff_awaitConfirm_token ext0 "CONFIRM" sConfirmStage).mpr ⟨rfl, by decide⟩,
   fun hh => absurd ((c2_order_iff_awaitConfirm_token ext0 "CONFIRM" defaultSession).mp hh).1
     (by decide)⟩

/-! ## C4: the await_county handler -/

/-- An `await_county`-phase session. -/
def sCounty : Session := { state := some SState.awaitCounty }

/-- C4 counterexample: `xyzzy` resolves to no known zone in the gazetteer,
yet in `await_county` it is accepted as-is: the session is mutated (county
stored title-cased, ETA computed) and the phase moves to `await_name`,
instead of the claimed same-phase re-prompt without mutation. -/
theorem c4_counterexample :
    guess_county "xyzzy" = none ∧
    (brain_reply ext0 "xyzzy" sCounty).session =
      { sCounty with last_county := some "Xyzzy", last_eta := some "24 hours",
                     state := some SState.awaitName } ∧
    (brain_reply ext0 "xyzzy" sCounty).session ≠ sCounty := by
  exact ⟨rfl, rfl, by decide⟩

/-- C4 (amended): in `await_county`, when no earlier keyword rule claims
the input, any input whose letters-only normalization is non-empty is
accepted WITHOUT consulting the gazetteer: it is stored title-cased as the
delivery zone together with its computed ETA label and the phase becomes
`await_name`; only an input normalizing to the empty string re-prompts in
the same phase without mutating any field. -/
theorem c4_await_county_accepts_any_letters (ext : Ext) (text : String) (sess : Session)
    (hst : sess.state = some SState.awaitCounty)
    (hcancel : ¬(containsAny (pyLower (pyStrip text)) cancelKws = true))
    (hagent : ¬(containsAny (pyLower (pyStrip text)) agentKws = true))
    (hissue : ¬(occurs "incubator issues" (pyLower (pyStrip text)) = true ∨
        containsAny (pyLower (pyStrip text)) issueKws = true))
    (hprice : ¬(containsAny (pyLower (pyStrip text)) priceKws = true))
    (hdeliv : ¬(occurs "delivery" (pyLower (pyStrip text)) = true ∨
        occurs "deliver" (pyLower (pyStrip text)) = true ∨
        occurs "delivery terms" (pyLower (pyStrip text)) = true)) :
    (pyStrip (lettersOnly (pyLower (pyStrip text))) = "" →
      brain_reply ext text sess = { session := sess, reply := { text := some county_prompt_text } }) ∧
    (pyStrip (lettersOnly (pyLower (pyStrip text))) ≠ "" →
      brain_reply ext text sess =
        { session := { sess with
            last_county := some (pyTitle (pyStrip (lettersOnly (pyLower (pyStrip text)))))
            last_eta := some (delivery_eta_text (pyStrip (lettersOnly (pyLower (pyStrip text)))))
            state := some SState.awaitName }
          reply := { text := some (county_ack_text (pyStrip (lettersOnly (pyLower (pyStrip text))))) } }) := by
  have hnm : noMainRule (pyLower (pyStrip text)) (digitsOf (pyLower (pyStrip text))) sess := by
    refine ⟨?_, ?_, ?_, ?_, ?_, ?_, ?_, ?_, ?_, ?_, ?_, ?_, ?_, ?_, ?_, ?_, ?_, ?_, ?_,
      ?_, ?_, ?_, ?_⟩
    · intro hcon; exact hcancel hcon.1
    · intro hcon; simp [hst] at hcon
    · intro hcon; simp [hst] at hcon
    · intro hcon; exact hcon.1 (by rw [hst]; decide)
    · intro hcon; exact hcon.1 (by rw [hst]; decide)
    · intro hcon; exact hcon.1 (by rw [hst]; decide)
    · intro hcon; exact hcon.1 (by rw [hst]; decide)
    · intro hcon; simp [hst] at hcon
    · intro hcon; simp [hst] at hcon
    · intro hcon; simp [hst] at hcon
    · intro hcon; simp [hst] at hcon
    · intro hcon; simp [hst] at hcon
    · intro hcon; simp [hst] at hcon
    · intro hcon; simp [hst] at hcon
    · intro hcon; simp [hst] at hcon
    · intro hcon; simp [hst] at hcon
    · intro hcon; simp [hst] at hcon
    · intro hcon; exact hagent hcon
    · intro hcon; exact hissue hcon
    · intro hcon; exact hprice hcon
    · intro hcon; simp [hst] at hcon
    · intro hcon; simp [hst] at hcon
    · simp [prices_cap_branch, hst]
  rw [brain_reply_eq_rest ext text sess hnm]
  delta brain_reply_rest
  rw [if_neg hdeliv, if_pos hst]
  constructor
  · intro he; rw [if_pos he]
  · intro he; rw [if_neg he]

/-- Witness for C4 at the non-gazetteer input `kampala`. -/
theorem c4_await_county_accepts_any_letters_witness :
    brain_reply ext0 "kampala" sCounty =
      { session := { sCounty with
            last_county := some "Kampala"
            last_eta := some "24 hours"
            state := some SState.awaitName }
        reply := { text := some (county_ack_text "kampala") } } :=
  (c4_await_county_accepts_any_letters ext0 "kampala" sCounty rfl (by decide) (by decide)
    (by decide) (by decide) (by decide)).2 (by decide)

/-! ## Session invariant (for C1 and C6) -/

/-- The fields guaranteed to be present in each phase: a delivery county
from `await_name` on, plus the customer name from `await_phone` on, plus
the phone from `await_confirm` / the edit phases on. -/
def fieldsOk0 : Option SState → Session → Prop
  | some SState.awaitName, s => s.last_county.isSome = true
  | some SState.awaitPhone, s =>
      s.last_county.isSome = true ∧ s.customer_name.isSome = true
  | some SState.awaitConfirm, s | some SState.editMenu, s | some SState.editName, s
  | some SState.editPhone, s | some SState.editCounty, s | some SState.editModel, s =>
      s.last_county.isSome = true ∧ s.customer_name.isSome = true ∧
        s.customer_phone.isSome = true
  | _, _ => True

/-- The inductive session invariant: the phase's fields are present; in
`cancel_confirm` the remembered prior phase's fields are present and the
prior phase is never `cancel_confirm` itself; and `prev_state` is only ever
unset or one of the checkout/edit phases recorded at cancellation time. -/
def SessInv (s : Session) : Prop :=
  fieldsOk0 s.state s ∧
  (s.state = some SState.cancelConfirm →
    fieldsOk0 s.prev_state s ∧ s.prev_state ≠ some SState.cancelConfirm) ∧
  (s.prev_state = none ∨
    (s.prev_state ∈ cancelStatesOpt ∧ s.prev_state ≠ some SState.cancelConfirm))

theorem fieldsOk0_congr (st : Option SState) (s s' : Session)
    (h1 : s'.last_county = s.last_county) (h2 : s'.customer_name = s.customer_name)
    (h3 : s'.customer_phone = s.customer_phone) :
    fieldsOk0 st s' ↔ fieldsOk0 st s := by
  rcases st with _ | st
  · simp [fieldsOk0]
  · cases st <;> simp [fieldsOk0, h1, h2, h3]

theorem sessInv_default : SessInv defaultSession :=
  ⟨trivial, fun hc => Option.noConfusion hc, Or.inl rfl⟩

/-- The three category-menu phases (the targets of the global jump other
than `prices`). -/
def menusOpt : List (Option SState) :=
  [some SState.chicksMenu, some SState.eggsMenu, some SState.cagesMenu]

theorem mem_nonInterrupt_not_menu (o : Option SState)
    (h : o ∈ nonInterruptStatesOpt) : o ∉ menusOpt := by
  fin_cases h <;> decide

theorem prices_cap_branch_session (sess : Session) (low : String) (r : BrainResult)
    (h : prices_cap_branch sess low = some r) :
    ∃ p, r.session = { sess with last_product := some p } ∧
      sess.state = some SState.prices := by
  simp only [prices_cap_branch] at h
  repeat' split at h
  all_goals first
    | exact Option.noConfusion h
    | (injection h with h; exact ⟨_, by rw [← h], by assumption⟩)

theorem prices_cap_branch_facts (sess : Session) (low : String) (r : BrainResult)
    (h : prices_cap_branch sess low = some r) :
    (SessInv sess → SessInv r.session) ∧ r.session.state = some SState.prices := by
  obtain ⟨p, hr, hst⟩ := prices_cap_branch_session sess low r h
  refine ⟨fun hInv => ?_, by rw [hr]; exact hst⟩
  rw [hr]
  refine ⟨?_, ?_, hInv.2.2⟩
  · exact (fieldsOk0_congr sess.state sess { sess with last_product := some p }
      rfl rfl rfl).mpr hInv.1
  · intro hc
    rw [show ({ sess with last_product := some p } : Session).state = sess.state from rfl,
      hst] at hc
    exact absurd hc (by decide)

/-- One step of `brain_reply_rest` preserves the session invariant, and
from a checkout/edit/cancel ("non-interrupt") phase it never moves the
session into one of the three category-menu phases. -/
theorem rest_step_facts (ext : Ext) (t low : String) (sess : Session) (hInv : SessInv sess) :
    SessInv (brain_reply_rest ext t low sess).session ∧
    (sess.state ∈ nonInterruptStatesOpt →
      (brain_reply_rest ext t low sess).session.state ∉ menusOpt) := by
  delta brain_reply_rest
  by_cases g1 : occurs "delivery" low = true ∨ occurs "deliver" low = true ∨
      occurs "delivery terms" low = true
  · rw [if_pos g1]
    exact ⟨hInv, fun hp => mem_nonInterrupt_not_menu _ hp⟩
  rw [if_neg g1]
  by_cases g2 : sess.state = some SState.awaitCounty
  · rw [if_pos g2]
    by_cases g2a : pyStrip (lettersOnly low) = ""
    · rw [if_pos g2a]; exact ⟨hInv, fun hp => mem_nonInterrupt_not_menu _ hp⟩
    · rw [if_neg g2a]
      exact ⟨⟨rfl, fun hc => by simp at hc, hInv.2.2⟩, fun _ => by simp [menusOpt]⟩
  rw [if_neg g2]
  by_cases g3 : sess.state = some SState.awaitName
  · rw [if_pos g3]
    have h0 := hInv.1
    rw [g3] at h0
    by_cases g3a : (pyStrip t).length < 2
    · rw [if_pos g3a]; exact ⟨hInv, fun hp => mem_nonInterrupt_not_menu _ hp⟩
    · rw [if_neg g3a]
      exact ⟨⟨⟨h0, rfl⟩, fun hc => by simp at hc, hInv.2.2⟩, fun _ => by simp [menusOpt]⟩
  rw [if_neg g3]
  by_cases g4 : sess.state = some SState.awaitPhone
  · rw [if_pos g4]
    have h0 := hInv.1
    rw [g4] at h0
    by_cases g4a : countDigits (phoneChars t) < 9
    · rw [if_pos g4a]; exact ⟨hInv, fun hp => mem_nonInterrupt_not_menu _ hp⟩
    · rw [if_neg g4a]
      exact ⟨⟨⟨h0.1, h0.2, rfl⟩, fun hc => by simp at hc, hInv.2.2⟩,
        fun _ => by simp [menusOpt]⟩
  rw [if_neg g4]
  by_cases g5 : sess.state = some SState.awaitConfirm ∧ occurs "edit" low = true
  · rw [if_pos g5]
    have h0 := hInv.1
    rw [g5.1] at h0
    exact ⟨⟨h0, fun hc => by simp at hc, hInv.2.2⟩, fun _ => by simp [menusOpt]⟩
  rw [if_neg g5]
  by_cases g6 : sess.state = some SState.editMenu
  · rw [if_pos g6]
    have h0 := hInv.1
    rw [g6] at h0
    by_cases g6a : pyStrip (choiceChars low) ∈ ["1", "name"]
    · rw [if_pos g6a]
      exact ⟨⟨h0, fun hc => by simp at hc, hInv.2.2⟩, fun _ => by simp [menusOpt]⟩
    rw [if_neg g6a]
    by_cases g6b : pyStrip (choiceChars low) ∈ ["2", "phone"]
    · rw [if_pos g6b]
      exact ⟨⟨h0, fun hc => by simp at hc, hInv.2.2⟩, fun _ => by simp [menusOpt]⟩
    rw [if_neg g6b]
    by_cases g6c : pyStrip (choiceChars low) ∈ ["3", "county"]
    · rw [if_pos g6c]
      exact ⟨⟨h0, fun hc => by simp at hc, hInv.2.2⟩, fun _ => by simp [menusOpt]⟩
    rw [if_neg g6c]
    by_cases g6d : pyStrip (choiceChars low) ∈ ["4", "model", "capacity"]
    · rw [if_pos g6d]
      exact ⟨⟨h0, fun hc => by simp at hc, hInv.2.2⟩, fun _ => by simp [menusOpt]⟩
    rw [if_neg g6d]
    exact ⟨hInv, fun hp => mem_nonInterrupt_not_menu _ hp⟩
  rw [if_neg g6]
  by_cases g7 : sess.state = some SState.editName
  · rw [if_pos g7]
    have h0 := hInv.1
    rw [g7] at h0
    by_cases g7a : (pyStrip t).length < 2
    · rw [if_pos g7a]; exact ⟨hInv, fun hp => mem_nonInterrupt_not_menu _ hp⟩
    · rw [if_neg g7a]
      exact ⟨⟨⟨h0.1, rfl, h0.2.2⟩, fun hc => by simp at hc, hInv.2.2⟩,
        fun _ => by simp [menusOpt]⟩
  rw [if_neg g7]
  by_cases g8 : sess.state = some SState.editPhone
  · rw [if_pos g8]
    have h0 := hInv.1
    rw [g8] at h0
    by_cases g8a : countDigits (phoneChars t) < 9
    · rw [if_pos g8a]; exact ⟨hInv, fun hp => mem_nonInterrupt_not_menu _ hp⟩
    · rw [if_neg g8a]
      exact ⟨⟨⟨h0.1, h0.2.1, rfl⟩, fun hc => by simp at hc, hInv.2.2⟩,
        fun _ => by simp [menusOpt]⟩
  rw [if_neg g8]
  by_cases g9 : sess.state = some SState.editCounty
  · rw [if_pos g9]
    have h0 := hInv.1
    rw [g9] at h0
    by_cases g9a : pyStrip (lettersOnly (pyLower t)) = ""
    · rw [if_pos g9a]; exact ⟨hInv, fun hp => mem_nonInterrupt_not_menu _ hp⟩
    · rw [if_neg g9a]
      exact ⟨⟨⟨rfl, h0.2.1, h0.2.2⟩, fun hc => by simp at hc, hInv.2.2⟩,
        fun _ => by simp [menusOpt]⟩
  rw [if_neg g9]
  by_cases g10 : sess.state = some SState.editModel
  · rw [if_pos g10]
    have h0 := hInv.1
    rw [g10] at h0
    repeat' split
    all_goals first
      | exact ⟨hInv, fun hp => mem_nonInterrupt_not_menu _ hp⟩
      | exact ⟨⟨⟨h0.1, h0.2.1, h0.2.2⟩, fun hc => by simp at hc, hInv.2.2⟩,
          fun _ => by simp [menusOpt]⟩
  rw [if_neg g10]
  by_cases g11 : sess.state = some SState.awaitConfirm ∧ low = "confirm"
  · rw [if_pos g11]
    exact ⟨sessInv_default, fun _ => by simp [menusOpt, confirm_result]⟩
  rw [if_neg g11]
  split
  · exact ⟨⟨rfl, fun hc => by simp at hc, hInv.2.2⟩, fun _ => by simp [menusOpt]⟩
  · exact ⟨sessInv_default, fun _ => by simp [menusOpt]⟩

/-- One step of the full `brain_reply` chain preserves the session
invariant, and from a checkout/edit/cancel ("non-interrupt") phase it
never moves the session into one of the three category-menu phases. -/
theorem main_step_facts (ext : Ext) (t low digits : String) (sess : Session)
    (hInv : SessInv sess) :
    SessInv (brain_reply_main ext t low digits sess).session ∧
    (sess.state ∈ nonInterruptStatesOpt →
      (brain_reply_main ext t low digits sess).session.state ∉ menusOpt) := by
  delta brain_reply_main
  by_cases g1 : containsAny low cancelKws = true ∧ sess.state ∈ cancelStatesOpt ∧
      sess.state ≠ some SState.cancelConfirm
  · rw [if_pos g1]
    refine ⟨⟨trivial, fun _ => ?_, Or.inr ⟨g1.2.1, g1.2.2⟩⟩, fun _ => by simp [menusOpt]⟩
    exact ⟨(fieldsOk0_congr sess.state sess
      { sess with prev_state := sess.state, state := some SState.cancelConfirm }
      rfl rfl rfl).mpr hInv.1, g1.2.2⟩
  rw [if_neg g1]
  by_cases g2 : sess.state = some SState.cancelConfirm ∧ low ∈ ["yes", "y", "confirm", "ok"]
  · rw [if_pos g2]
    exact ⟨sessInv_default, fun _ => by simp [menusOpt]⟩
  rw [if_neg g2]
  by_cases g3 : sess.state = some SState.cancelConfirm ∧ low ∈ ["no", "n", "back"]
  · rw [if_pos g3]
    have hcc := hInv.2.1 g3.1
    have key : SessInv ({ sess with state := sess.prev_state } : Session) ∧
        ({ sess with state := sess.prev_state } : Session).state ∉ menusOpt := by
      refine ⟨⟨(fieldsOk0_congr sess.prev_state sess
        { sess with state := sess.prev_state } rfl rfl rfl).mpr hcc.1,
        fun hc => absurd hc hcc.2, hInv.2.2⟩, ?_⟩
      show sess.prev_state ∉ menusOpt
      rcases hInv.2.2 with hnone | ⟨hmem, _⟩
      · rw [hnone]; decide
      · exact mem_nonInterrupt_not_menu _ hmem
    by_cases gr : sess.prev_state ∈ resumeStatesOpt
    · rw [if_pos gr]; exact ⟨key.1, fun _ => key.2⟩
    · rw [if_neg gr]; exact ⟨key.1, fun _ => key.2⟩
  rw [if_neg g3]
  by_cases g4 : sess.state ∉ nonInterruptStatesOpt ∧
      (digits = "1" ∨ containsAny low incubator_phrases = true)
  · rw [if_pos g4]
    exact ⟨⟨trivial, fun hc => by simp at hc, hInv.2.2⟩, fun hp => absurd hp g4.1⟩
  rw [if_neg g4]
  by_cases g5 : sess.state ∉ nonInterruptStatesOpt ∧
      (digits = "3" ∨ containsAny low eggs_phrases_global = true)
  · rw [if_pos g5]
    exact ⟨⟨trivial, fun hc => by simp at hc, hInv.2.2⟩, fun hp => absurd hp g5.1⟩
  rw [if_neg g5]
  by_cases g6 : sess.state ∉ nonInterruptStatesOpt ∧
      (digits = "2" ∨ isChicksWord low = true)
  · rw [if_pos g6]
    exact ⟨⟨trivial, fun hc => by simp at hc, hInv.2.2⟩, fun hp => absurd hp g6.1⟩
  rw [if_neg g6]
  by_cases g7 : sess.state ∉ nonInterruptStatesOpt ∧
      (digits = "4" ∨ containsAny low cages_phrases = true)
  · rw [if_pos g7]
    exact ⟨⟨trivial, fun hc => by simp at hc, hInv.2.2⟩, fun hp => absurd hp g7.1⟩
  rw [if_neg g7]
  by_cases g8 : low ∈ greetings ∧ sess.state = none
  · rw [if_pos g8]
    exact ⟨hInv, fun hp => mem_nonInterrupt_not_menu _ hp⟩
  rw [if_neg g8]
  by_cases g9 : sess.state = none ∧ digits = "1"
  · rw [if_pos g9]
    exact ⟨⟨trivial, fun hc => by simp at hc, hInv.2.2⟩, fun _ => by simp [menusOpt]⟩
  rw [if_neg g9]
  by_cases g10 : sess.state = none ∧ (digits = "2" ∨ isChicksWord low = true)
  · rw [if_pos g10]
    refine ⟨⟨trivial, fun hc => by simp at hc, hInv.2.2⟩, fun hp => ?_⟩
    rw [g10.1] at hp; exact absurd hp (by decide)
  rw [if_neg g10]
  by_cases g11 : sess.state = some SState.chicksMenu ∧
      (occurs "photo" low = true ∨ occurs "photos" low = true)
  · rw [if_pos g11]
    exact ⟨sessInv_default, fun _ => by simp [menusOpt]⟩
  rw [if_neg g11]
  by_cases g12 : sess.state = some SState.chicksMenu ∧ low ∈ ["menu", "main menu", "back"]
  · rw [if_pos g12]
    exact ⟨sessInv_default, fun _ => by simp [menusOpt]⟩
  rw [if_neg g12]
  by_cases g13 : sess.state = some SState.chicksMenu ∧
      (digits = "3" ∨ containsAny low eggs_phrases_inner = true)
  · rw [if_pos g13]
    refine ⟨⟨trivial, fun hc => by simp at hc, hInv.2.2⟩, fun hp => ?_⟩
    rw [g13.1] at hp; exact absurd hp (by decide)
  rw [if_neg g13]
  by_cases g14 : sess.state = some SState.eggsMenu ∧
      (occurs "photo" low = true ∨ occurs "photos" low = true)
  · rw [if_pos g14]
    exact ⟨sessInv_default, fun _ => by simp [menusOpt]⟩
  rw [if_neg g14]
  by_cases g15 : sess.state = some SState.eggsMenu ∧ low ∈ ["menu", "main menu", "back"]
  · rw [if_pos g15]
    exact ⟨sessInv_default, fun _ => by simp [menusOpt]⟩
  rw [if_neg g15]
  by_cases g16 : sess.state = some SState.eggsMenu ∧
      (digits = "4" ∨ containsAny low cages_phrases = true)
  · rw [if_pos g16]
    refine ⟨⟨trivial, fun hc => by simp at hc, hInv.2.2⟩, fun hp => ?_⟩
    rw [g16.1] at hp; exact absurd hp (by decide)
  rw [if_neg g16]
  by_cases g17 : sess.state = some SState.cagesMenu ∧
      (occurs "photo" low = true ∨ occurs "photos" low = true)
  · rw [if_pos g17]
    exact ⟨sessInv_default, fun _ => by simp [menusOpt]⟩
  rw [if_neg g17]
  by_cases g18 : containsAny low agentKws = true
  · rw [if_pos g18]
    exact ⟨sessInv_default, fun _ => by simp [menusOpt]⟩
  rw [if_neg g18]
  by_cases g19 : occurs "incubator issues" low = true ∨ containsAny low issueKws = true
  · rw [if_pos g19]
    exact ⟨⟨trivial, fun hc => by simp at hc, hInv.2.2⟩, fun _ => by simp [menusOpt]⟩
  rw [if_neg g19]
  by_cases g20 : containsAny low priceKws = true
  · rw [if_pos g20]
    exact ⟨⟨trivial, fun hc => by simp at hc, hInv.2.2⟩, fun _ => by simp [menusOpt]⟩
  rw [if_neg g20]
  by_cases g21 : sess.state = some SState.prices ∧ low ∈ ["next", "more"]
  · rw [if_pos g21]
    refine ⟨⟨(fieldsOk0_congr sess.state sess { sess with page := sess.page + 1 }
      rfl rfl rfl).mpr hInv.1, fun hc => ?_, hInv.2.2⟩, fun _ => ?_⟩
    · have hc' : sess.state = some SState.cancelConfirm := hc
      rw [g21.1] at hc'; exact absurd hc' (by decide)
    · show sess.state ∉ menusOpt
      rw [g21.1]; decide
  rw [if_neg g21]
  by_cases g22 : sess.state = some SState.prices ∧ low ∈ ["back", "prev", "previous"]
  · rw [if_pos g22]
    refine ⟨⟨(fieldsOk0_congr sess.state sess { sess with page := max 1 (sess.page - 1) }
      rfl rfl rfl).mpr hInv.1, fun hc => ?_, hInv.2.2⟩, fun _ => ?_⟩
    · have hc' : sess.state = some SState.cancelConfirm := hc
      rw [g22.1] at hc'; exact absurd hc' (by decide)
    · show sess.state ∉ menusOpt
      rw [g22.1]; decide
  rw [if_neg g22]
  rcases hpc : prices_cap_branch sess low with _ | r
  · exact rest_step_facts ext t low sess hInv
  · have facts := prices_cap_branch_facts sess low r hpc
    refine ⟨facts.1 hInv, fun _ => ?_⟩
    show r.session.state ∉ menusOpt
    rw [facts.2]; decide

theorem reachable_inv (s : Session) (hr : Reachable s) : SessInv s := by
  induction hr with
  | base => exact sessInv_default
  | step ext text s _ ih =>
      exact (main_step_facts ext (pyStrip text) (pyLower (pyStrip text))
        (digitsOf (pyLower (pyStrip text))) s ih).1

/-! ## C1: fields present at the confirmation stage -/

/-- The reachable session produced from a fresh customer by the messages
`nairobi`, `Jane Wanjiku`, `0712345678`: the stateless county shortcut
jumps straight to `await_name`, so `await_confirm` is reached having never
selected a product. -/
def sShortcut : Session :=
  (brain_reply ext0 "0712345678"
    ((brain_reply ext0 "Jane Wanjiku"
      ((brain_reply ext0 "nairobi" defaultSession).session)).session)).session

/-- C1 counterexample: a reachable session in phase `await_confirm` whose
`last_product` is absent — the claimed invariant that `lastViewedItem` is
always present at the confirmation stage is false (the stateless county
shortcut path never sets it). -/
theorem c1_counterexample :
    Reachable sShortcut ∧ sShortcut.state = some SState.awaitConfirm ∧
      sShortcut.last_product = none :=
  ⟨Reachable.step ext0 "0712345678" _ (Reachable.step ext0 "Jane Wanjiku" _
      (Reachable.step ext0 "nairobi" _ Reachable.base)),
   rfl, rfl⟩

/-- C1 (amended): for every reachable session in phase `await_confirm`,
the customer name, customer phone and delivery county are all present;
`last_product` however may be absent (see the counterexample). -/
theorem c1_await_confirm_fields (s : Session) (hr : Reachable s)
    (hst : s.state = some SState.awaitConfirm) :
    s.customer_name.isSome = true ∧ s.customer_phone.isSome = true ∧
      s.last_county.isSome = true := by
  have h0 := (reachable_inv s hr).1
  rw [hst] at h0
  exact ⟨h0.2.1, h0.2.2, h0.1⟩

/-- Witness for C1 at the concrete reachable session `sShortcut`. -/
theorem c1_await_confirm_fields_witness :
    sShortcut.customer_name.isSome = true ∧ sShortcut.customer_phone.isSome = true ∧
      sShortcut.last_county.isSome = true :=
  c1_await_confirm_fields sShortcut
    (Reachable.step ext0 "0712345678" _ (Reachable.step ext0 "Jane Wanjiku" _
      (Reachable.step ext0 "nairobi" _ Reachable.base))) rfl

/-! ## C6: the global category jump guard -/

/-- C6 counterexample: the phase `prices` is not `Idle`, yet the
category-keyword input `cages` transitions the session to the cages menu
via the global jump (its guard excludes only the ten checkout/edit/cancel
phases, not every non-idle phase). -/
theorem c6_counterexample :
    sPrices.state ≠ none ∧
    (brain_reply ext0 "cages" sPrices).session.state = some SState.cagesMenu ∧
    (brain_reply ext0 "cages" sPrices).reply.text = some cages_text := by
  exact ⟨by decide, rfl, rfl⟩

/-- C6 (amended): the global category jump is guarded by "phase not among
the ten checkout/edit/cancel phases", not by "phase is Idle"; from those
ten protected phases no input ever transitions a reachable session into
the chicks, eggs or cages category menus. -/
theorem c6_no_jump_from_protected (ext : Ext) (text : String) (s : Session)
    (hr : Reachable s) (hp : s.state ∈ nonInterruptStatesOpt) :
    (brain_reply ext text s).session.state ∉ menusOpt :=
  (main_step_facts ext (pyStrip text) (pyLower (pyStrip text))
    (digitsOf (pyLower (pyStrip text))) s (reachable_inv s hr)).2 hp

/-- Witness for C6: from the reachable `await_confirm` session, the
category input `cages` does not reach any category menu. -/
theorem c6_no_jump_from_protected_witness :
    (brain_reply ext0 "cages" sShortcut).session.state ∉ menusOpt :=
  c6_no_jump_from_protected ext0 "cages" sShortcut
    (Reachable.step ext0 "0712345678" _ (Reachable.step ext0 "Jane Wanjiku" _
      (Reachable.step ext0 "nairobi" _ Reachable.base))) (by decide)

end Neochicks
